import Mathlib

/-!
Verification of the shader-detection and property-mapping engine of the
Synty-to-Godot material converter (`shader_mapping.py`, `converter.py`,
`material_list.py`), as a shallow embedding in Lean 4.

Python dictionaries are modelled as association lists (`List (String × α)`)
with Python-dict semantics: `pyLookup` returns the value of the (unique)
binding of a key, `pyInsert` replaces the value of an existing key in place
or appends a new binding at the end (matching insertion-order preservation
of Python 3.7+ dicts), and iteration is a left fold over the list.
Float values are modelled as rationals (`ℚ`), which is faithful here because
the engine only compares values against exact decimal constants.
-/

namespace SyntyConv

/-- Python `d.get(k)`: value of the first (unique) binding of `k`, if any. -/
def pyLookup {α : Type} (d : List (String × α)) (k : String) : Option α :=
  match d with
  | [] => none
  | (k2, v) :: rest => if k2 = k then some v else pyLookup rest k

/-- Python `k in d`. -/
def pyHasKey {α : Type} (d : List (String × α)) (k : String) : Bool :=
  (pyLookup d k).isSome

/-- Python `d[k] = v`: replace the value of an existing binding in place,
or append a new binding at the end (Python dicts preserve insertion order). -/
def pyInsert {α : Type} (d : List (String × α)) (k : String) (v : α) :
    List (String × α) :=
  match d with
  | [] => [(k, v)]
  | (k2, w) :: rest =>
      if k2 = k then (k2, v) :: rest else (k2, w) :: pyInsert rest k v

/-- Python `{**a, **b}`: start from `a`, then write every binding of `b`. -/
def pyMerge {α : Type} (a b : List (String × α)) : List (String × α) :=
  b.foldl (fun acc p => pyInsert acc p.1 p.2) a

/-- Integer-keyed dict (for the per-prefab slot-index map). -/
def pyLookupNat {α : Type} (d : List (Nat × α)) (k : Nat) : Option α :=
  match d with
  | [] => none
  | (k2, v) :: rest => if k2 = k then some v else pyLookupNat rest k

/-- Integer-keyed dict assignment. -/
def pyInsertNat {α : Type} (d : List (Nat × α)) (k : Nat) (v : α) :
    List (Nat × α) :=
  match d with
  | [] => [(k, v)]
  | (k2, w) :: rest =>
      if k2 = k then (k2, v) :: rest else (k2, w) :: pyInsertNat rest k v

/-!
## Regex pattern matching

Every entry of `SHADER_NAME_PATTERNS_SCORED` is a case-insensitive Python
regex that is either an alternation of literal substrings or the single
pattern `soft.?particle`.  `re.search` with the `(?i)` flag on these
patterns is: lowercase the name (ASCII), then look for a literal substring
(resp. `soft`, one optional non-newline character, `particle`).
-/

/-- ASCII lowercasing, as performed by the `(?i)` regex flag on the
ASCII-only literals of the pattern table. -/
def lowerChar (c : Char) : Char :=
  if 'A' ≤ c ∧ c ≤ 'Z' then Char.ofNat (c.toNat + 32) else c

/-- `litPre needle hay`: `needle` is a prefix of `hay`. -/
def litPre : List Char → List Char → Bool
  | [], _ => true
  | _ :: _, [] => false
  | a :: as, b :: bs => a = b && litPre as bs

/-- `containsSub needle hay`: `needle` occurs as a contiguous substring. -/
def containsSub (needle : List Char) : List Char → Bool
  | [] => litPre needle []
  | c :: rest => litPre needle (c :: rest) || containsSub needle rest

/-- Matcher for the one non-literal pattern, `(?i)soft.?particle`
(`.` does not match a newline in Python `re`). -/
def softParticleMatch : List Char → Bool
  | [] => false
  | c :: rest =>
      (litPre "soft".data (c :: rest) &&
        (litPre "particle".data ((c :: rest).drop 4) ||
          (match (c :: rest).drop 4 with
           | d :: r2 => d ≠ '\n' && litPre "particle".data r2
           | [] => false)))
      || softParticleMatch rest

/-- One pattern of `SHADER_NAME_PATTERNS_SCORED`: an alternation of
case-insensitive literal substrings, or the special `soft.?particle`. -/
inductive NamePattern where
  | lits : List String → NamePattern
  | softParticle : NamePattern
deriving DecidableEq

/-- `pattern.search(material_name)` succeeds. -/
def patMatches (p : NamePattern) (material_name : String) : Bool :=
  let lowered := material_name.data.map lowerChar
  match p with
  | NamePattern.lits ls => ls.any (fun lit => containsSub lit.data lowered)
  | NamePattern.softParticle => softParticleMatch lowered

/-- `SHADER_NAME_PATTERNS_SCORED` from `shader_mapping.py`: ordered list of
(pattern, shader, score). -/
def SHADER_NAME_PATTERNS_SCORED : List (NamePattern × String × Nat) := [
  -- HIGH PRIORITY - Technical/Specific Terms (50-60 points)
  (NamePattern.lits ["triplanar"], "polygon.gdshader", 60),
  (NamePattern.lits ["caustics"], "water.gdshader", 55),
  (NamePattern.lits ["fresnel", "refractive", "refraction"], "crystal.gdshader", 55),
  (NamePattern.softParticle, "particles.gdshader", 55),
  (NamePattern.lits ["skydome", "sky_dome", "skybox", "sky_box"], "skydome.gdshader", 55),
  -- MEDIUM-HIGH PRIORITY - Clear Material Types (40-49 points)
  (NamePattern.lits ["crystal", "gem", "jewel", "diamond", "ruby", "emerald",
    "sapphire", "amethyst", "quartz"], "crystal.gdshader", 45),
  (NamePattern.lits ["water", "ocean", "river", "lake", "waterfall"], "water.gdshader", 45),
  (NamePattern.lits ["particle", "fx_"], "particles.gdshader", 45),
  (NamePattern.lits ["cloud", "clouds", "sky_cloud"], "clouds.gdshader", 45),
  -- MEDIUM PRIORITY - Common Material Types (30-39 points)
  (NamePattern.lits ["glass", "ice", "transparent", "translucent"], "crystal.gdshader", 35),
  (NamePattern.lits ["pond", "stream", "liquid", "aqua", "sea"], "water.gdshader", 35),
  (NamePattern.lits ["fog", "mist", "atmosphere"], "clouds.gdshader", 35),
  (NamePattern.lits ["spark", "dust", "debris", "smoke", "fire", "rain", "snow",
    "splash"], "particles.gdshader", 35),
  (NamePattern.lits ["aurora", "sky_gradient"], "skydome.gdshader", 35),
  (NamePattern.lits ["foliage", "vegetation"], "foliage.gdshader", 35),
  -- LOW-MEDIUM PRIORITY - Generic Vegetation Terms (20-29 points)
  (NamePattern.lits ["tree", "fern", "grass", "vine", "branch", "willow", "bush",
    "shrub", "hedge", "bamboo", "koru", "treefern"], "foliage.gdshader", 25),
  (NamePattern.lits ["leaf", "leaves"], "foliage.gdshader", 20),
  (NamePattern.lits ["bark", "trunk", "undergrowth", "plant"], "foliage.gdshader", 20),
  -- LOW PRIORITY - Ambiguous Terms (10-19 points)
  (NamePattern.lits ["moss", "dirt"], "polygon.gdshader", 15),
  (NamePattern.lits ["effect", "additive"], "particles.gdshader", 15)]

/-- `DEFAULT_SHADER` from `shader_mapping.py`. -/
def DEFAULT_SHADER : String := "polygon.gdshader"

/-- Signature property sets of one specialized shader
(the value type of `SHADER_SPECIFIC_PROPERTIES`). -/
structure ShaderSignature where
  textures : List String
  floats : List String
  colors : List String
deriving DecidableEq

/-- `SHADER_GUID_MAP` from `shader_mapping.py`. -/
def SHADER_GUID_MAP : List (String × String) := [
  ("0730dae39bc73f34796280af9875ce14", "polygon.gdshader"),
  ("9b98a126c8d4d7a4baeb81b16e4f7b97", "foliage.gdshader"),
  ("0736e099ec10c9e46b9551b2337d0cc7", "particles.gdshader"),
  ("19e269a311c45cd4482cf0ac0e694503", "polygon.gdshader"),
  ("436db39b4e2ae5e46a17e21865226b19", "water.gdshader"),
  ("5808064c5204e554c89f589a7059c558", "crystal.gdshader"),
  ("de1d86872962c37429cb628a7de53613", "skydome.gdshader"),
  ("4a6c8c23090929241b2a55476a46a9b1", "clouds.gdshader"),
  ("dfec08fb273e4674bb5398df25a5932c", "foliage.gdshader"),
  ("fdea4239d29733541b44cd6960afefcd", "crystal.gdshader"),
  ("3b44a38ec6f81134ab0f820ac54d6a93", "polygon.gdshader"),
  ("3d532bc2d70158948859b7839127e562", "skydome.gdshader"),
  ("74fa94d128fe4f348889c6f5f182e0e1", "skydome.gdshader"),
  ("0835602ed30128f4a88a652bf920fcaa", "polygon.gdshader"),
  ("2b5804ffd3081d344bed894a653e3014", "polygon.gdshader"),
  ("5c2ccdfe181d55b42bd5313305f194e4", "polygon.gdshader"),
  ("77e5bdd170fa4a4459dea431aba43e3c", "polygon.gdshader"),
  ("972cd3fede1c33342b0f52ad57f47d90", "polygon.gdshader"),
  ("c48a4461fec61fc45a01e7d6a50e520f", "foliage.gdshader"),
  ("325b924500ba5804aa4b407d80084502", "polygon.gdshader"),
  ("0ecc70cac2c8895439f5094ba6660db8", "polygon.gdshader"),
  ("5d828b280155912429aa717d34cd8879", "polygon.gdshader"),
  ("62e87ad08a1afa642830420bf8e0dd4d", "polygon.gdshader"),
  ("2a33a166317493947a7be330dcc78a05", "polygon.gdshader"),
  ("e9556606a5f42464fa7dd78d624dc180", "polygon.gdshader"),
  ("a49be8e7504a48b4fba9b0c2a7fad57b", "polygon.gdshader"),
  ("1f67b66c29dfd4f45aa8cc07bf5e901a", "polygon.gdshader"),
  ("a711ca3b984db6a4e81ec2d50ca4c0ca", "polygon.gdshader"),
  ("5d014726978e80a43b6178cba929343b", "polygon.gdshader"),
  ("a7331fc07349b124c8c15d545676f9ed", "polygon.gdshader"),
  ("d0be6b296f23e8d459e94b4007017ea0", "polygon.gdshader"),
  ("e8b857c3d7fea464e942e1c1f0940e96", "polygon.gdshader"),
  ("e312e3877c798a44dba23093a3417a94", "polygon.gdshader"),
  ("a2cae5b0e99e16249b9a2163a7087bcb", "foliage.gdshader"),
  ("d2820334f2975bb47ab3f2fffa1b4cbe", "skydome.gdshader"),
  ("b83105300c9f7fb42a6e1b790fd2bd29", "particles.gdshader"),
  ("00eec7c5cd1f4c6429ffee9a690c3d16", "particles.gdshader"),
  ("f3534f26c7b573c45a1346e0634d57fc", "polygon.gdshader"),
  ("e17f8fe2503580447a3784d34b316d11", "polygon.gdshader"),
  ("933532a4fcc9baf4fa0491de14d08ed7", "polygon.gdshader"),
  ("56ef766d507df464fb2a1726a99c925f", "particles.gdshader"),
  ("1ab581f9e0198304996581171522f458", "water.gdshader"),
  ("4b0390819f518774fa1a44198298459a", "foliage.gdshader"),
  ("0000000000000000f000000000000000", "polygon.gdshader"),
  ("e854bc7dc0cde7044b9000faaf0c4e11", "polygon.gdshader"),
  ("9b1e1d14d7778714391ae095571c3d4f", "water.gdshader"),
  ("df6b3a02955954d41bb15c534388ba14", "polygon.gdshader"),
  ("903fe97c2d85c8147a64932806c92eb1", "water.gdshader"),
  ("ca9b700964f37d84a90b00c70d981934", "skydome.gdshader"),
  ("ab6da834753539b4989259dbf4bcc39b", "polygon.gdshader"),
  ("22e3738818284144eb7ada0a62acca66", "polygon.gdshader"),
  ("402ae1c33e4c28c45876b1bc945b77e6", "particles.gdshader"),
  ("da24369d453e6a547aaa57ebee28fc81", "polygon.gdshader"),
  ("8e5d248915e86014095ff0547bc0c755", "polygon.gdshader"),
  ("1bf4a2dc982313347912f313ba25f563", "polygon.gdshader"),
  ("e603b0446c7f2804db0c8dd0fb5c1af0", "polygon.gdshader")]

/-- `TEXTURE_MAP_FOLIAGE` from `shader_mapping.py`. -/
def TEXTURE_MAP_FOLIAGE : List (String × String) := [
  ("_Leaf_Texture", "leaf_color"),
  ("_Leaf_Normal", "leaf_normal"),
  ("_Trunk_Texture", "trunk_color"),
  ("_Trunk_Normal", "trunk_normal"),
  ("_Leaf_Ambient_Occlusion", "leaf_ao"),
  ("_Trunk_Ambient_Occlusion", "trunk_ao"),
  ("_Emissive_Mask", "emissive_mask"),
  ("_Emissive_2_Mask", "emissive_2_mask"),
  ("_Emissive_Pulse_Map", "emissive_pulse_mask"),
  ("_Trunk_Emissive_Mask", "trunk_emissive_mask"),
  ("_Breeze_Noise_Map", "breeze_noise_map")]

/-- `TEXTURE_MAP_POLYGON` from `shader_mapping.py`. -/
def TEXTURE_MAP_POLYGON : List (String × String) := [
  ("_Base_Texture", "base_texture"),
  ("_Normal_Texture", "normal_texture"),
  ("_Emission_Texture", "emission_texture"),
  ("_AO_Texture", "ao_texture"),
  ("_Triplanar_Texture_Top", "triplanar_texture_top"),
  ("_Triplanar_Texture_Side", "triplanar_texture_side"),
  ("_Triplanar_Texture_Bottom", "triplanar_texture_bottom"),
  ("_Albedo_Map", "base_texture"),
  ("_BaseMap", "base_texture"),
  ("_MainTex", "base_texture"),
  ("_Normal_Map", "normal_texture"),
  ("_BumpMap", "normal_texture"),
  ("_Emission_Map", "emission_texture"),
  ("_EmissionMap", "emission_texture"),
  ("_OcclusionMap", "ao_texture"),
  ("_Metallic_Smoothness_Texture", "metallic_texture"),
  ("_MetallicGlossMap", "metallic_texture"),
  ("_MainTexture", "base_texture"),
  ("_Emission", "emission_texture"),
  ("_Hair_Mask", "hair_mask"),
  ("_Skin_Mask", "skin_mask"),
  ("_Mask_01", "mask_01"),
  ("_Mask_02", "mask_02"),
  ("_Mask_03", "mask_03"),
  ("_Mask_04", "mask_04"),
  ("_Mask_05", "mask_05"),
  ("_Metallic_Map", "metallic_texture"),
  ("_Grunge_Map", "grunge_map"),
  ("_Blood_Mask", "blood_mask"),
  ("_Blood_Texture", "blood_texture"),
  ("_Rune_Texture", "rune_texture"),
  ("_Floor", "floor_texture"),
  ("_Wall", "wall_texture"),
  ("_Ceiling", "ceiling_texture"),
  ("_Back", "back_texture"),
  ("_Props", "props_texture"),
  ("_Scan_Line_Map", "scan_line_map"),
  ("_LED_Mask_01", "led_mask"),
  ("_Cloth_Mask", "cloth_mask"),
  ("_Overlay_Texture", "overlay_texture"),
  ("_Triplanar_Emission_Texture", "triplanar_emission_texture"),
  ("_Triplanar_Normal_Texture_Bottom", "triplanar_normal_bottom"),
  ("_Triplanar_Normal_Texture_Side", "triplanar_normal_side"),
  ("_Triplanar_Normal_Texture_Top", "triplanar_normal_top"),
  ("_Moss", "overlay_texture"),
  ("_MossTexture", "overlay_texture"),
  ("_ParallaxMap", "height_texture"),
  ("_HeightMap", "height_texture"),
  ("_Alpha_Texture", "alpha_texture"),
  ("_Spherical_Map", "spherical_map"),
  ("_Snow_Normal_Texture", "snow_normal_texture"),
  ("_Snow_Metallic_Smoothness_Texture", "snow_metallic_smoothness"),
  ("_Snow_Edge_Noise", "snow_edge_noise"),
  ("_LED_Panel_Emissive_Wave_01", "led_emissive_wave"),
  ("_Pixelation_Map", "pixelation_map"),
  ("_DetailAlbedoMap", "detail_albedo"),
  ("_DetailNormalMap", "detail_normal"),
  ("_DetailMask", "detail_mask")]

/-- `TEXTURE_MAP_CRYSTAL` from `shader_mapping.py`. -/
def TEXTURE_MAP_CRYSTAL : List (String × String) := [
  ("_Base_Albedo", "base_albedo"),
  ("_Base_Normal", "base_normal"),
  ("_Refraction_Height", "refraction_height"),
  ("_Refraction_Texture", "refraction_texture"),
  ("_Top_Albedo", "top_albedo"),
  ("_Top_Normal", "top_normal"),
  ("_MainTex", "base_albedo"),
  ("_BumpMap", "base_normal"),
  ("_BaseMap", "base_albedo")]

/-- `TEXTURE_MAP_WATER` from `shader_mapping.py`. -/
def TEXTURE_MAP_WATER : List (String × String) := [
  ("_Caustics_Flipbook", "caustics_flipbook"),
  ("_Foam_Noise_Texture", "noise_texture"),
  ("_Foam_Texture", "noise_texture"),
  ("_Foam_Texture1", "noise_texture"),
  ("_FoamMask", "noise_texture"),
  ("_Noise_Texture", "noise_texture"),
  ("_Normal_Map", "normal_texture"),
  ("_Normal_Texture", "normal_texture"),
  ("_Scrolling_Texture", "scrolling_texture"),
  ("_Shore_Foam_Noise_Texture", "shore_foam_noise_texture"),
  ("_Water_Normal_Texture", "normal_texture"),
  ("_WaterNormal", "normal_texture"),
  ("_WaterNormal1", "normal_texture"),
  ("_WaterNormal2", "normal_texture"),
  ("_RipplesNormal", "normal_texture"),
  ("_RipplesNormal2", "normal_texture"),
  ("_WaveMask", "noise_texture"),
  ("_WaveMaskTuff", "noise_texture"),
  ("_WaveNoise", "noise_texture"),
  ("_Shore_Wave_Foam_Noise_Texture", "shore_foam_noise_texture"),
  ("_Water_Noise_Texture", "noise_texture"),
  ("_MainTex", "normal_texture"),
  ("_BumpMap", "normal_texture"),
  ("_BaseMap", "normal_texture")]

/-- `TEXTURE_MAP_PARTICLES` from `shader_mapping.py`. -/
def TEXTURE_MAP_PARTICLES : List (String × String) := [
  ("_Albedo_Map", "albedo_map"),
  ("_MainTex", "albedo_map"),
  ("_BaseMap", "albedo_map")]

/-- `TEXTURE_MAP_SKYDOME` from `shader_mapping.py` (empty). -/
def TEXTURE_MAP_SKYDOME : List (String × String) := []

/-- `TEXTURE_MAP_CLOUDS` from `shader_mapping.py` (empty). -/
def TEXTURE_MAP_CLOUDS : List (String × String) := []

/-- `FLOAT_MAP_FOLIAGE` from `shader_mapping.py`. -/
def FLOAT_MAP_FOLIAGE : List (String × String) := [
  ("_Metallic", "metallic"),
  ("_Smoothness", "smoothness"),
  ("_Glossiness", "smoothness"),
  ("_LeafSmoothness", "leaf_smoothness"),
  ("_Leaf_Smoothness", "leaf_smoothness"),
  ("_Leaf_Metallic", "leaf_metallic"),
  ("_TrunkSmoothness", "trunk_smoothness"),
  ("_Trunk_Smoothness", "trunk_smoothness"),
  ("_Trunk_Metallic", "trunk_metallic"),
  ("_Breeze_Strength", "breeze_strength"),
  ("_Light_Wind_Strength", "light_wind_strength"),
  ("_Strong_Wind_Strength", "strong_wind_strength"),
  ("_Wind_Twist_Strength", "wind_twist_strength"),
  ("_Gale_Blend", "gale_blend"),
  ("_Light_Wind_Y_Strength", "light_wind_y_strength"),
  ("_Light_Wind_Y_Offset", "light_wind_y_offset"),
  ("_Alpha_Clip_Threshold", "alpha_clip_threshold"),
  ("_Normal_Intensity", "normal_intensity"),
  ("_BumpScale", "normal_intensity"),
  ("_Frosting_Falloff", "frosting_falloff"),
  ("_Frosting_Height", "frosting_height"),
  ("_Leaves_WindAmount", "breeze_strength"),
  ("_Tree_WindAmount", "light_wind_strength"),
  ("_Cutoff", "alpha_clip_threshold"),
  ("_AlphaCutoff", "alpha_clip_threshold")]

/-- `FLOAT_MAP_POLYGON` from `shader_mapping.py`. -/
def FLOAT_MAP_POLYGON : List (String × String) := [
  ("_Smoothness", "smoothness"),
  ("_Glossiness", "smoothness"),
  ("_Metallic", "metallic"),
  ("_Snow_Level", "snow_level"),
  ("_Normal_Intensity", "normal_intensity"),
  ("_Normal_Amount", "normal_intensity"),
  ("_BumpScale", "normal_intensity"),
  ("_AO_Intensity", "ao_intensity"),
  ("_OcclusionStrength", "ao_intensity"),
  ("_Alpha_Clip_Threshold", "alpha_clip_threshold"),
  ("_Cutoff", "alpha_clip_threshold"),
  ("_AlphaCutoff", "alpha_clip_threshold"),
  ("_HoloLines", "holo_lines"),
  ("_Scroll_Speed", "scroll_speed"),
  ("_Opacity", "opacity"),
  ("_Hologram_Intensity", "hologram_intensity"),
  ("_Screen_Bulge", "screen_bulge"),
  ("_Screen_Flicker_Frequency", "screen_flicker_frequency"),
  ("_Vignette_Amount", "vignette_amount"),
  ("_Pixelation_Amount", "pixelation_amount"),
  ("_CRT_Curve", "crt_curve"),
  ("_RoomTile", "room_tile"),
  ("_RoomIntensity", "room_intensity"),
  ("_WindowAlpha", "window_alpha"),
  ("_RoomDepth", "room_depth"),
  ("_Transparency", "transparency"),
  ("_RimPower", "rim_power"),
  ("_TransShadow", "trans_shadow"),
  ("_Ghost_Strength", "ghost_strength"),
  ("_Dirt_Amount", "dirt_amount"),
  ("_Dust_Amount", "dust_amount"),
  ("_Grunge_Intensity", "grunge_intensity"),
  ("_Glow_Amount", "glow_amount"),
  ("_Glow_Falloff", "glow_falloff"),
  ("_dissolve", "dissolve"),
  ("_twirlstr", "twirl_strength"),
  ("_Rune_Speed", "rune_speed"),
  ("_liquidamount", "liquid_amount"),
  ("_WobbleX", "wobble_x"),
  ("_WobbleZ", "wobble_z"),
  ("_Wave_Scale", "wave_scale"),
  ("_Foam_Line", "foam_line"),
  ("_Rim_Width", "rim_width"),
  ("_BloodAmount", "blood_amount"),
  ("_Blood_Intensity", "blood_intensity"),
  ("_Brightness", "brightness"),
  ("_UVScrollSpeed", "uv_scroll_speed"),
  ("_Saturation", "saturation"),
  ("_Neon_Intensity", "neon_intensity"),
  ("_Pulse_Speed", "pulse_speed"),
  ("_Wave_Speed", "wave_speed"),
  ("_Wave_Amplitude", "wave_amplitude"),
  ("_Wind_Influence", "wind_influence"),
  ("_BodyArt_Amount", "bodyart_amount"),
  ("_Tattoo_Amount", "tattoo_amount"),
  ("_Flipbook_Width", "flipbook_width"),
  ("_Flipbook_Height", "flipbook_height"),
  ("_Flipbook_Speed", "flipbook_speed"),
  ("_Distortion_strength", "distortion_strength"),
  ("_Edge_Distortion_Intensity", "edge_distortion_intensity"),
  ("_Speed_X", "speed_x"),
  ("_Speed_Y", "speed_y"),
  ("_Snow_Transition", "snow_transition"),
  ("_Snow_Metallic", "snow_metallic"),
  ("_Snow_Smoothness", "snow_smoothness"),
  ("_Snow_Normal_Intensity", "snow_normal_intensity"),
  ("_Triplanar_Fade", "triplanar_fade"),
  ("_Triplanar_Intensity", "triplanar_intensity"),
  ("_Triplanar_Normal_Intensity_Top", "triplanar_normal_intensity_top"),
  ("_Triplanar_Normal_Intensity_Side", "triplanar_normal_intensity_side"),
  ("_Triplanar_Normal_Intensity_Bottom", "triplanar_normal_intensity_bottom"),
  ("_Emission_Intensity", "emission_intensity"),
  ("_DetailNormalMapScale", "detail_normal_scale")]

/-- `FLOAT_MAP_CRYSTAL` from `shader_mapping.py`. -/
def FLOAT_MAP_CRYSTAL : List (String × String) := [
  ("_Metallic", "metallic"),
  ("_Smoothness", "smoothness"),
  ("_Glossiness", "smoothness"),
  ("_Opacity", "opacity"),
  ("_Fresnel_Power", "fresnel_power"),
  ("_Refraction_Strength", "refraction_strength"),
  ("_Deep_Depth", "deep_depth"),
  ("_Shallow_Depth", "shallow_depth"),
  ("_Normal_Intensity", "normal_intensity"),
  ("_BumpScale", "normal_intensity")]

/-- `FLOAT_MAP_WATER` from `shader_mapping.py`. -/
def FLOAT_MAP_WATER : List (String × String) := [
  ("_Smoothness", "smoothness"),
  ("_Glossiness", "smoothness"),
  ("_Metallic", "metallic"),
  ("_Base_Opacity", "base_opacity"),
  ("_Shallows_Opacity", "shallows_opacity"),
  ("_Maximum_Depth", "maximum_depth"),
  ("_Normal_Intensity", "normal_intensity"),
  ("_BumpScale", "normal_intensity"),
  ("_Shore_Wave_Speed", "shore_wave_speed"),
  ("_Ocean_Wave_Height", "ocean_wave_height"),
  ("_Ocean_Wave_Speed", "ocean_wave_speed"),
  ("_Distortion_Strength", "distortion_strength"),
  ("_Deep_Height", "deep_height"),
  ("_Very_Deep_Height", "very_deep_height"),
  ("_Depth_Distance", "depth_distance"),
  ("_Water_Depth", "water_depth"),
  ("_ShallowFalloff", "shallow_intensity"),
  ("_OverallFalloff", "base_opacity"),
  ("_OpacityFalloff", "shallows_opacity"),
  ("_Shore_Foam_Intensity", "shore_foam_intensity"),
  ("_FoamShoreline", "shore_foam_intensity"),
  ("_FoamDepth", "shore_foam_intensity"),
  ("_FoamFalloff", "ocean_foam_opacity"),
  ("_Caustics_Intensity", "caustics_intensity"),
  ("_CausticDepthFade", "caustics_intensity"),
  ("_CausticScale", "caustics_scale"),
  ("_CausticSpeed", "caustics_speed"),
  ("_Shallow_Intensity", "shallow_intensity"),
  ("_FresnelPower", "fresnel_power"),
  ("_UVScrollSpeed", "uv_scroll_speed")]

/-- `FLOAT_MAP_PARTICLES` from `shader_mapping.py`. -/
def FLOAT_MAP_PARTICLES : List (String × String) := [
  ("_Alpha_Clip_Treshold", "alpha_clip_threshold"),
  ("_Alpha_Clip_Threshold", "alpha_clip_threshold"),
  ("_Cutoff", "alpha_clip_threshold"),
  ("_AlphaCutoff", "alpha_clip_threshold"),
  ("_Soft_Power", "soft_power"),
  ("_Soft_Distance", "soft_distance"),
  ("_Camera_Fade_Near", "camera_fade_near"),
  ("_Camera_Fade_Far", "camera_fade_far"),
  ("_Camera_Fade_Smoothness", "camera_fade_smoothness"),
  ("_View_Edge_Power", "view_edge_power"),
  ("_Fog_Density", "fog_density")]

/-- `FLOAT_MAP_SKYDOME` from `shader_mapping.py`. -/
def FLOAT_MAP_SKYDOME : List (String × String) := [
  ("_Falloff", "falloff"),
  ("_Offset", "offset"),
  ("_Distance", "distance_")]

/-- `FLOAT_MAP_CLOUDS` from `shader_mapping.py`. -/
def FLOAT_MAP_CLOUDS : List (String × String) := [
  ("_Light_Intensity", "light_intensity"),
  ("_Fresnel_Power", "fresnel_power"),
  ("_Fog_Density", "fog_density"),
  ("_Scattering_Multiplier", "scattering_multiplier"),
  ("_Cloud_Speed", "cloud_speed"),
  ("_Cloud_Strength", "cloud_strength"),
  ("_CloudCoverage", "cloud_strength"),
  ("_CloudPower", "cloud_strength"),
  ("_CloudSpeed", "cloud_speed"),
  ("_Cloud_Contrast", "scattering_multiplier"),
  ("_Cloud_Falloff", "fog_density"),
  ("_Aurora_Speed", "aurora_speed"),
  ("_Aurora_Intensity", "aurora_intensity"),
  ("_Aurora_Scale", "aurora_scale")]

/-- `COLOR_MAP_FOLIAGE` from `shader_mapping.py`. -/
def COLOR_MAP_FOLIAGE : List (String × String) := [
  ("_Color", "color_tint"),
  ("_Color_Tint", "color_tint"),
  ("_BaseColor", "color_tint"),
  ("_Leaf_Base_Color", "leaf_base_color"),
  ("_Trunk_Base_Color", "trunk_base_color"),
  ("_Leaf_Noise_Color", "leaf_noise_color"),
  ("_Trunk_Noise_Color", "trunk_noise_color"),
  ("_Emissive_Color", "emissive_color"),
  ("_Emissive_2_Color", "emissive_2_color"),
  ("_Trunk_Emissive_Color", "trunk_emissive_color"),
  ("_Frosting_Color", "frosting_color"),
  ("_ColorTint", "color_tint")]

/-- `COLOR_MAP_POLYGON` from `shader_mapping.py`. -/
def COLOR_MAP_POLYGON : List (String × String) := [
  ("_Color_Tint", "color_tint"),
  ("_Color", "color_tint"),
  ("_BaseColor", "color_tint"),
  ("_BaseColour", "color_tint"),
  ("_Emission_Color", "emission_color"),
  ("_EmissionColor", "emission_color"),
  ("_Snow_Color", "snow_color"),
  ("_Hair_Color", "hair_color"),
  ("_Skin_Color", "skin_color"),
  ("_Neon_Colour_01", "neon_color_01"),
  ("_Neon_Colour_02", "neon_color_02"),
  ("_Hologram_Color", "hologram_color"),
  ("_RimColor", "rim_color"),
  ("_Dust_Colour", "dust_color"),
  ("_Glow_Colour", "glow_color"),
  ("_Glow_Tint", "glow_tint"),
  ("_Liquid_Color", "liquid_color"),
  ("_BloodColor", "blood_color"),
  ("_Blood_Color", "blood_color"),
  ("_Color_Primary", "color_primary"),
  ("_Color_Secondary", "color_secondary"),
  ("_Color_Tertiary", "color_tertiary"),
  ("_Color_Metal_Primary", "color_metal_primary"),
  ("_Color_Metal_Secondary", "color_metal_secondary"),
  ("_Color_Metal_Dark", "color_metal_dark"),
  ("_Color_Leather_Primary", "color_leather_primary"),
  ("_Color_Leather_Secondary", "color_leather_secondary"),
  ("_Color_Skin", "color_skin"),
  ("_Color_Hair", "color_hair"),
  ("_Color_Eyes", "color_eyes"),
  ("_Color_Stubble", "color_stubble"),
  ("_Color_Scar", "color_scar"),
  ("_Color_BodyArt", "color_bodyart")]

/-- `COLOR_MAP_CRYSTAL` from `shader_mapping.py`. -/
def COLOR_MAP_CRYSTAL : List (String × String) := [
  ("_Base_Color", "base_color"),
  ("_Base_Color_Multiplier", "base_color"),
  ("_Top_Color_Multiplier", "top_color"),
  ("_Deep_Color", "deep_color"),
  ("_Shallow_Color", "shallow_color"),
  ("_Fresnel_Color", "fresnel_color"),
  ("_Refraction_Color", "refraction_color")]

/-- `COLOR_MAP_WATER` from `shader_mapping.py`. -/
def COLOR_MAP_WATER : List (String × String) := [
  ("_Shallow_Color", "shallow_color"),
  ("_Deep_Color", "deep_color"),
  ("_Very_Deep_Color", "very_deep_color"),
  ("_ShallowColour", "shallow_color"),
  ("_DeepColour", "deep_color"),
  ("_VeryDeepColour", "very_deep_color"),
  ("_Foam_Color", "foam_color"),
  ("_Caustics_Color", "caustics_color"),
  ("_CausticColour", "caustics_color"),
  ("_Shore_Foam_Color_Tint", "shore_foam_color_tint"),
  ("_Shore_Wave_Color_Tint", "shore_wave_color_tint"),
  ("_FoamEmitColour", "shore_foam_color_tint"),
  ("_DepthGlowColour", "very_deep_color"),
  ("_Color", "color_tint"),
  ("_Color_Tint", "color_tint"),
  ("_BaseColor", "color_tint"),
  ("_WaterDeepColor", "deep_color"),
  ("_WaterShallowColor", "shallow_color"),
  ("_Water_Deep_Color", "deep_color"),
  ("_Water_Shallow_Color", "shallow_color"),
  ("_Water_Near_Color", "shallow_color"),
  ("_Water_Far_Color", "deep_color"),
  ("_WaterColour", "water_color"),
  ("_FresnelColour", "fresnel_color")]

/-- `COLOR_MAP_PARTICLES` from `shader_mapping.py`. -/
def COLOR_MAP_PARTICLES : List (String × String) := [
  ("_Base_Color", "base_color"),
  ("_Color", "base_color"),
  ("_Color_Tint", "base_color"),
  ("_BaseColor", "base_color"),
  ("_Fog_Color", "fog_color"),
  ("_EmissionColor", "emission_color")]

/-- `COLOR_MAP_SKYDOME` from `shader_mapping.py`. -/
def COLOR_MAP_SKYDOME : List (String × String) := [
  ("_Top_Color", "top_color"),
  ("_Bottom_Color", "bottom_color")]

/-- `COLOR_MAP_CLOUDS` from `shader_mapping.py`. -/
def COLOR_MAP_CLOUDS : List (String × String) := [
  ("_Top_Color", "top_color"),
  ("_Base_Color", "base_color"),
  ("_Fresnel_Color", "fresnel_color"),
  ("_Scattering_Color", "scattering_color"),
  ("_CloudColor", "top_color"),
  ("_Aurora_Color_01", "aurora_color_01"),
  ("_Aurora_Color_02", "aurora_color_02")]

/-- `ALPHA_FIX_PROPERTIES` from `shader_mapping.py` (a Python set; membership only). -/
def ALPHA_FIX_PROPERTIES : List String := [
  "_Base_Color",
  "_Base_Color_Multiplier",
  "_Top_Color_Multiplier",
  "_Deep_Color",
  "_Shallow_Color",
  "_Fresnel_Color",
  "_Refraction_Color",
  "_Water_Deep_Color",
  "_Water_Shallow_Color",
  "_Water_Near_Color",
  "_Water_Far_Color",
  "_Foam_Color",
  "_Caustics_Color",
  "_CausticColour",
  "_Shore_Foam_Color_Tint",
  "_Shore_Wave_Color_Tint",
  "_WaterDeepColor",
  "_WaterShallowColor",
  "_WaterColour",
  "_FresnelColour",
  "_Very_Deep_Color",
  "_ShallowColour",
  "_DeepColour",
  "_VeryDeepColour",
  "_FoamEmitColour",
  "_DepthGlowColour",
  "_Leaf_Base_Color",
  "_Trunk_Base_Color",
  "_Emissive_Color",
  "_Emissive_2_Color",
  "_Trunk_Emissive_Color",
  "_Frosting_Color",
  "_Neon_Colour_01",
  "_Neon_Colour_02",
  "_Glow_Colour",
  "_Glow_Tint",
  "_RimColor",
  "_Hologram_Color",
  "_BloodColor",
  "_Blood_Color",
  "_Dust_Colour",
  "_Color",
  "_BaseColor",
  "_BaseColour",
  "_Color_Tint",
  "_ColorTint",
  "_Hair_Color",
  "_Skin_Color",
  "_Snow_Color",
  "_Emission_Color",
  "_EmissionColor",
  "_Liquid_Color",
  "_Top_Color",
  "_Bottom_Color",
  "_Base_Color",
  "_Scattering_Color",
  "_Aurora_Color_01",
  "_Aurora_Color_02",
  "_Color_Primary",
  "_Color_Secondary",
  "_Color_Tertiary",
  "_Color_Metal_Primary",
  "_Color_Metal_Secondary",
  "_Color_Metal_Dark",
  "_Color_Leather_Primary",
  "_Color_Leather_Secondary",
  "_Color_Skin",
  "_Color_Hair",
  "_Color_Eyes",
  "_Color_Stubble",
  "_Color_Scar",
  "_Color_BodyArt",
  "_Leaf_Noise_Color",
  "_Trunk_Noise_Color"]

/-- `BOOLEAN_FLOAT_PROPERTIES` from `shader_mapping.py` (a Python set; membership only). -/
def BOOLEAN_FLOAT_PROPERTIES : List String := [
  "_Enable_Breeze",
  "_Enable_Light_Wind",
  "_Enable_Strong_Wind",
  "_Enable_Wind_Twist",
  "_Enable_Frosting",
  "_Wind_Enabled",
  "_Leaves_Wave",
  "_Tree_Wave",
  "_Enable_Fresnel",
  "_Enable_Side_Fresnel",
  "_Enable_Depth",
  "_Enable_Refraction",
  "_Enable_Triplanar",
  "_Enable_Triplanar_Texture",
  "_Enable_Snow",
  "_Enable_Emission",
  "_Enable_Normals",
  "_AlphaClip",
  "_Enable_Hologram",
  "_Enable_Ghost",
  "_Use_Metallic_Map",
  "_Use_Weather_Controller",
  "_Use_Vertex_Color_Wind",
  "_Randomize_Flipbook_From_Location",
  "_Enable_UV_Distortion",
  "_Enable_Brightness_Breakup",
  "_Enable_Wave",
  "_Enable_Detail_Map",
  "_Enable_Parallax",
  "_Enable_AO",
  "_Enable_Shore_Wave_Foam",
  "_Enable_Shore_Foam",
  "_Enable_Shore_Waves",
  "_Enable_Ocean_Waves",
  "_Enable_Ocean_Wave",
  "_Enable_Caustics",
  "_Enable_Distortion",
  "_VertexOffset_Toggle",
  "_Enable_Soft_Particles",
  "_Enable_Camera_Fade",
  "_Enable_Scene_Fog",
  "_Enable_UV_Based",
  "_Use_Environment_Override",
  "_Enable_Fog",
  "_Enable_Scattering"]

/-- `SHADER_SPECIFIC_PROPERTIES` from `shader_mapping.py`: per specialized
shader, the signature texture/float/color property names. -/
def SHADER_SPECIFIC_PROPERTIES : List (String × ShaderSignature) := [
  ("foliage.gdshader", ⟨["_Leaf_Texture", "_Trunk_Texture", "_Leaf_Normal", "_Trunk_Normal", "_Breeze_Noise_Map", "_Leaf_Ambient_Occlusion", "_Trunk_Ambient_Occlusion"],
    ["_Breeze_Strength", "_Light_Wind_Strength", "_Strong_Wind_Strength", "_Leaf_Smoothness", "_LeafSmoothness", "_Trunk_Smoothness", "_TrunkSmoothness", "_Leaf_Metallic", "_Trunk_Metallic"],
    ["_Leaf_Base_Color", "_Trunk_Base_Color"]⟩),
  ("crystal.gdshader", ⟨["_Refraction_Height", "_Refraction_Texture", "_Top_Albedo", "_Base_Albedo", "_Top_Normal", "_Base_Normal"],
    ["_Fresnel_Power", "_Refraction_Strength", "_Deep_Depth", "_Shallow_Depth", "_Enable_Fresnel", "_Enable_Refraction"],
    ["_Deep_Color", "_Shallow_Color", "_Fresnel_Color", "_Refraction_Color"]⟩),
  ("water.gdshader", ⟨["_Caustics_Flipbook", "_Foam_Noise_Texture", "_Shore_Foam_Noise_Texture", "_Scrolling_Texture", "_Water_Normal_Texture", "_Foam_Texture"],
    ["_Maximum_Depth", "_Shore_Wave_Speed", "_Ocean_Wave_Height", "_Shore_Foam_Intensity", "_Caustics_Intensity", "_Base_Opacity", "_Shallows_Opacity"],
    ["_Shallow_Color", "_Deep_Color", "_Very_Deep_Color", "_Foam_Color", "_Caustics_Color"]⟩),
  ("particles.gdshader", ⟨[],
    ["_Soft_Power", "_Soft_Distance", "_Camera_Fade_Near", "_Camera_Fade_Far", "_View_Edge_Power", "_Fog_Density"],
    ["_Fog_Color"]⟩),
  ("skydome.gdshader", ⟨[],
    ["_Falloff", "_Offset", "_Distance"],
    ["_Top_Color", "_Bottom_Color"]⟩),
  ("clouds.gdshader", ⟨[],
    ["_Light_Intensity", "_Scattering_Multiplier", "_Cloud_Speed", "_Cloud_Strength", "_CloudCoverage"],
    ["_Scattering_Color", "_Aurora_Color_01", "_Aurora_Color_02"]⟩)]

/-- `water_float_props` from `shader_mapping.py` (diagnostic set inside `detect_shader_type`). -/
def water_float_props : List String := [
  "_Enable_Shore_Foam",
  "_Enable_Shore_Waves",
  "_Enable_Caustics",
  "_Enable_Ocean_Wave",
  "_Shore_Foam_Intensity",
  "_Water_Depth",
  "_Depth_Distance",
  "_Deep_Height",
  "_Shallow_Intensity",
  "_Shore_Wave_Speed",
  "_Ocean_Wave_Height",
  "_Ocean_Wave_Speed",
  "_Caustics_Intensity",
  "_Maximum_Depth",
  "_Base_Opacity",
  "_Shallows_Opacity",
  "_Very_Deep_Height"]

/-- `water_color_props` from `shader_mapping.py` (diagnostic set inside `detect_shader_type`). -/
def water_color_props : List String := [
  "_Water_Deep_Color",
  "_Water_Shallow_Color",
  "_Foam_Color",
  "_Shore_Wave_Color_Tint",
  "_Shore_Foam_Color_Tint",
  "_Caustics_Color"]

/-- `foliage_float_props` from `shader_mapping.py` (diagnostic set inside `detect_shader_type`). -/
def foliage_float_props : List String := [
  "_Enable_Breeze",
  "_Breeze_Strength",
  "_Enable_Light_Wind",
  "_Light_Wind_Strength",
  "_Enable_Strong_Wind",
  "_Strong_Wind_Strength",
  "_Wind_Enabled",
  "_Leaf_Metallic",
  "_Leaf_Smoothness",
  "_Trunk_Metallic",
  "_Trunk_Smoothness",
  "_Frosting_Falloff",
  "_Frosting_Height",
  "_Wind_Twist_Strength",
  "_Gale_Blend",
  "_Light_Wind_Y_Strength",
  "_Light_Wind_Y_Offset"]

/-- `foliage_color_props` from `shader_mapping.py` (diagnostic set inside `detect_shader_type`). -/
def foliage_color_props : List String := [
  "_Leaf_Base_Color",
  "_Trunk_Base_Color",
  "_Leaf_Noise_Color",
  "_Trunk_Noise_Color",
  "_Frosting_Color",
  "_Trunk_Emissive_Color"]

/-- `clouds_float_props` from `shader_mapping.py` (diagnostic set inside `detect_shader_type`). -/
def clouds_float_props : List String := [
  "_Cloud_Speed",
  "_Cloud_Strength",
  "_Scattering_Multiplier",
  "_Scattering_Edge_Dist",
  "_Light_Intensity",
  "_Fog_Density"]

/-- `clouds_color_props` from `shader_mapping.py` (diagnostic set inside `detect_shader_type`). -/
def clouds_color_props : List String := [
  "_Scattering_Color"]

/-- `particles_float_props` from `shader_mapping.py` (diagnostic set inside `detect_shader_type`). -/
def particles_float_props : List String := [
  "_Soft_Power",
  "_Soft_Distance",
  "_Enable_Soft_Particles",
  "_Camera_Fade_Near",
  "_Camera_Fade_Far",
  "_Camera_Fade_Smoothness",
  "_View_Edge_Power",
  "_Enable_Camera_Fade"]

/-- `skydome_float_props` from `shader_mapping.py` (diagnostic set inside `detect_shader_type`). -/
def skydome_float_props : List String := [
  "_Falloff",
  "_Offset",
  "_Distance"]

/-- `skydome_color_props` from `shader_mapping.py` (diagnostic set inside `detect_shader_type`). -/
def skydome_color_props : List String := [
  "_Top_Color",
  "_Bottom_Color"]

/-- `crystal_float_props` from `shader_mapping.py` (diagnostic set inside `detect_shader_type`). -/
def crystal_float_props : List String := [
  "_Enable_Fresnel",
  "_Enable_Depth",
  "_Enable_Refraction",
  "_Fresnel_Power",
  "_Refraction_Strength",
  "_Opacity",
  "_Deep_Depth",
  "_Shallow_Depth"]

/-- `crystal_color_props` from `shader_mapping.py` (diagnostic set inside `detect_shader_type`). -/
def crystal_color_props : List String := [
  "_Fresnel_Color",
  "_Refraction_Color"]


/-!
## Data classes (`Color`, `TextureRef`, `UnityMaterial`, `MappedMaterial`)
-/

/-- `Color` dataclass from `shader_mapping.py` (float channels as ℚ). -/
structure Color where
  r : ℚ := 0
  g : ℚ := 0
  b : ℚ := 0
  a : ℚ := 1
deriving DecidableEq

/-- `Color.as_tuple()`. -/
def Color.as_tuple (c : Color) : ℚ × ℚ × ℚ × ℚ := (c.r, c.g, c.b, c.a)

/-- `Color.has_rgb()`: any of r, g, b is non-zero. -/
def Color.has_rgb (c : Color) : Bool := c.r ≠ 0 || c.g ≠ 0 || c.b ≠ 0

/-- `TextureRef` dataclass from `unity_parser.py`. -/
structure TextureRef where
  guid : String
  scale : ℚ × ℚ := (1, 1)
  offset : ℚ × ℚ := (0, 0)
deriving DecidableEq

/-- `UnityMaterial` dataclass from `unity_parser.py` (the record consumed by
`map_material` and `validate_shader_properties`). -/
structure UnityMaterial where
  name : String
  shader_guid : String
  tex_envs : List (String × TextureRef) := []
  floats : List (String × ℚ) := []
  colors : List (String × Color) := []
deriving DecidableEq

/-- `MappedMaterial` dataclass from `shader_mapping.py`. -/
structure MappedMaterial where
  name : String
  shader_file : String
  textures : List (String × String) := []
  floats : List (String × ℚ) := []
  bools : List (String × Bool) := []
  colors : List (String × (ℚ × ℚ × ℚ × ℚ)) := []
deriving DecidableEq

/-!
## Shader detection (`detect_shader_type`)
-/

/-- `shader_scores[shader] = shader_scores.get(shader, 0) + score`. -/
def addScore (scores : List (String × Nat)) (shader : String) (score : Nat) :
    List (String × Nat) :=
  pyInsert scores shader ((pyLookup scores shader).getD 0 + score)

/-- `shader_scores.get(t, 0)` — accumulated score of a target. -/
def scoreOf (scores : List (String × Nat)) (t : String) : Nat :=
  (pyLookup scores t).getD 0

/-- Python `max(shader_scores, key=shader_scores.get)` over the non-empty
dict `x :: xs`: the first binding with the maximal score, in insertion
order (only a strictly greater score displaces the current best). -/
def bestEntry (x : String × Nat) (xs : List (String × Nat)) : String × Nat :=
  xs.foldl (fun best p => if best.2 < p.2 then p else best) x

/-- The name-pattern tier: every matching pattern contributes its score. -/
def namePatternScores (material_name : String) : List (String × Nat) :=
  SHADER_NAME_PATTERNS_SCORED.foldl
    (fun scores r =>
      if patMatches r.1 material_name then addScore scores r.2.1 r.2.2
      else scores)
    []

/-- `sum(1 for p in props if p in d)`. -/
def countIn {α : Type} (props : List String) (d : List (String × α)) : Nat :=
  props.countP (fun p => pyHasKey d p)

/-- `if c > 0: shader_scores[k] = shader_scores.get(k, 0) + c * 10`
(`PROPERTY_SCORE = 10`). -/
def condAddProps (scores : List (String × Nat)) (k : String) (c : Nat) :
    List (String × Nat) :=
  if 0 < c then addScore scores k (c * 10) else scores

/-- The property tier of `detect_shader_type` (TIER 3): each diagnostic
float/color property present adds 10 points to that shader, with the
skydome count getting a bonus of 2 when both gradient colors are present. -/
def propertyScores (scores : List (String × Nat))
    (floats : List (String × ℚ)) (colors : List (String × (ℚ × ℚ × ℚ × ℚ))) :
    List (String × Nat) :=
  let s := condAddProps scores "water.gdshader"
    (countIn water_float_props floats + countIn water_color_props colors)
  let s := condAddProps s "foliage.gdshader"
    (countIn foliage_float_props floats + countIn foliage_color_props colors)
  let s := condAddProps s "clouds.gdshader"
    (countIn clouds_float_props floats + countIn clouds_color_props colors)
  let s := condAddProps s "particles.gdshader"
    (countIn particles_float_props floats)
  let skyc := countIn skydome_float_props floats + countIn skydome_color_props colors
  let skyc := if pyHasKey colors "_Top_Color" && pyHasKey colors "_Bottom_Color"
    then skyc + 2 else skyc
  let s := condAddProps s "skydome.gdshader" skyc
  condAddProps s "crystal.gdshader"
    (countIn crystal_float_props floats + countIn crystal_color_props colors)

/-- Tiers 2 and 3 of `detect_shader_type`: name-pattern scores, then (when
floats or colors were supplied and non-empty) property scores. -/
def detectScores (material_name : String)
    (floats : Option (List (String × ℚ)))
    (colors : Option (List (String × (ℚ × ℚ × ℚ × ℚ)))) :
    List (String × Nat) :=
  let base := namePatternScores material_name
  let fl := floats.getD []
  let co := colors.getD []
  if fl.isEmpty && co.isEmpty then base else propertyScores base fl co

/-- The selection and fallback part of `detect_shader_type`: the best score
wins if it reaches 20, else the GUID-tier result (if any) or the default. -/
def detectFromScores (guid_shader : Option String)
    (scores : List (String × Nat)) : String :=
  match scores with
  | [] => guid_shader.getD DEFAULT_SHADER
  | x :: xs =>
      let best := bestEntry x xs
      if 20 ≤ best.2 then best.1 else guid_shader.getD DEFAULT_SHADER

/-- `detect_shader_type` from `shader_mapping.py`: GUID tier (authoritative
when it names a non-default shader), then scoring tiers, then fallback. -/
def detect_shader_type (shader_guid material_name : String)
    (floats : Option (List (String × ℚ)) := none)
    (colors : Option (List (String × (ℚ × ℚ × ℚ × ℚ))) := none) : String :=
  match pyLookup SHADER_GUID_MAP shader_guid with
  | some s =>
      if s = DEFAULT_SHADER then
        detectFromScores (some s) (detectScores material_name floats colors)
      else s
  | none => detectFromScores none (detectScores material_name floats colors)

/-- `detect_shader_from_name` from `shader_mapping.py`: name-pattern tier
only; `none` when no score reaches 20. -/
def detect_shader_from_name (material_name : String) : Option String :=
  match namePatternScores material_name with
  | [] => none
  | x :: xs =>
      let best := bestEntry x xs
      if 20 ≤ best.2 then some best.1 else none

/-- `determine_shader` from `shader_mapping.py`: the simplified
MaterialList-based flow. -/
def determine_shader (material_name : String) (uses_custom_shader : Bool) :
    String × Bool :=
  if ¬ uses_custom_shader then (DEFAULT_SHADER, true)
  else
    match detect_shader_from_name material_name with
    | some shader => (shader, true)
    | none => (DEFAULT_SHADER, false)

/-!
## Property conversion helpers and `map_material`
-/

/-- `_fix_alpha_zero` from `shader_mapping.py` without the transparency-mode
guard: for fix-listed properties, alpha 0 with visible RGB becomes alpha 1. -/
def alphaFixCore (color : Color) (property_name : String) : Color :=
  if property_name ∈ ALPHA_FIX_PROPERTIES then
    if color.a = 0 ∧ color.has_rgb = true then
      { r := color.r, g := color.g, b := color.b, a := 1 }
    else color
  else color

/-- `_fix_alpha_zero` from `shader_mapping.py`: skipped entirely when the
floats were supplied and contain `_Mode >= 1` (transparent material). -/
def fix_alpha_zero (color : Color) (property_name : String)
    (floats : Option (List (String × ℚ)) := none) : Color :=
  match floats with
  | some fl =>
      if (1 : ℚ) ≤ (pyLookup fl "_Mode").getD 0 then color
      else alphaFixCore color property_name
  | none => alphaFixCore color property_name

/-- ASCII uppercase test (Python regex `[A-Z]`). -/
def isUpperAZ (c : Char) : Bool := 'A' ≤ c && c ≤ 'Z'

/-- Python `re.sub(r'(?<!^)(?=[A-Z])', '_', name)`: an underscore goes in
front of every uppercase letter except at the very start. -/
def insertUnderscores : List Char → List Char
  | [] => []
  | c :: rest => c :: rest.flatMap (fun d => if isUpperAZ d then ['_', d] else [d])

/-- Helper of `collapseUnderscores`: the flag records whether the previous
kept character was an underscore (an underscore run already emitted). -/
def collapseFrom : Bool → List Char → List Char
  | _, [] => []
  | prevU, c :: rest =>
      if c = '_' then
        if prevU then collapseFrom true rest
        else '_' :: collapseFrom true rest
      else c :: collapseFrom false rest

/-- Python `re.sub(r'_+', '_', result)`: collapse runs of underscores. -/
def collapseUnderscores (l : List Char) : List Char := collapseFrom false l

/-- `_unity_to_godot_name` from `shader_mapping.py`: strip leading
underscores, underscore-separate interior capitals, lowercase, collapse
repeated underscores. -/
def unity_to_godot_name (unity_name : String) : String :=
  let name := unity_name.data.dropWhile (fun c => c = '_')
  let result := (insertUnderscores name).map lowerChar
  String.mk (collapseUnderscores result)

/-- The Godot parameter name a boolean float property ends up under:
the float map's entry when present, else the derived snake_case name. -/
def godotNameFor (float_map : List (String × String)) (unity_name : String) :
    String :=
  (pyLookup float_map unity_name).getD (unity_to_godot_name unity_name)

/-- One iteration of the `_convert_boolean_floats` loop from
`shader_mapping.py`: a boolean-listed property goes to the bools dict as
`value != 0.0` under its mapped-or-derived name; any other property goes to
the floats dict when the float map knows it, and is dropped otherwise. -/
def convStep (float_map : List (String × String))
    (acc : (List (String × ℚ)) × (List (String × Bool))) (p : String × ℚ) :
    (List (String × ℚ)) × (List (String × Bool)) :=
  if p.1 ∈ BOOLEAN_FLOAT_PROPERTIES then
    (acc.1, pyInsert acc.2 (godotNameFor float_map p.1) (decide (p.2 ≠ 0)))
  else
    match pyLookup float_map p.1 with
    | some godot_name => (pyInsert acc.1 godot_name p.2, acc.2)
    | none => acc

/-- `_convert_boolean_floats` main loop: a left fold of `convStep` over the
material's float properties in insertion order. -/
def convert_boolean_floats (floats : List (String × ℚ))
    (float_map : List (String × String)) :
    (List (String × ℚ)) × (List (String × Bool)) :=
  floats.foldl (convStep float_map) ([], [])

/-- A value of `SHADER_DEFAULTS` is a float or a bool. -/
inductive DefVal where
  | fval : ℚ → DefVal
  | bval : Bool → DefVal
deriving DecidableEq

/-- The rational `n / d` (with `d` positive and the fraction in lowest
terms) as a structure literal: the decimal float constants of the source
are exact rationals. -/
def qlit (n : Int) (d : Nat) (h1 : d ≠ 0 := by decide)
    (h2 : n.natAbs.Coprime d := by decide) : ℚ := ⟨n, d, h1, h2⟩

/-- `SHADER_DEFAULTS` from `shader_mapping.py` (0.7 = 7/10, 0.1 = 1/10,
0.15 = 3/20, 0.95 = 19/20, 0.5 = 1/2). -/
def SHADER_DEFAULTS : List (String × List (String × DefVal)) := [
  ("crystal.gdshader", [("opacity", DefVal.fval (qlit 7 10))]),
  ("foliage.gdshader", [
    ("leaf_smoothness", DefVal.fval (qlit 1 10)),
    ("trunk_smoothness", DefVal.fval (qlit 3 20)),
    ("leaf_metallic", DefVal.fval 0),
    ("trunk_metallic", DefVal.fval 0)]),
  ("water.gdshader", [
    ("smoothness", DefVal.fval (qlit 19 20)),
    ("metallic", DefVal.fval 0)]),
  ("polygon.gdshader", [
    ("smoothness", DefVal.fval (qlit 1 2)),
    ("metallic", DefVal.fval 0)])]

/-- `_apply_defaults` from `shader_mapping.py`: inject a shader default into
bools or floats only when the parameter is not already present. -/
def apply_defaults (material : MappedMaterial) : MappedMaterial :=
  let defaults := (pyLookup SHADER_DEFAULTS material.shader_file).getD []
  defaults.foldl
    (fun m p =>
      match p.2 with
      | DefVal.bval b =>
          if ¬ pyHasKey m.bools p.1 = true then
            { m with bools := pyInsert m.bools p.1 b }
          else m
      | DefVal.fval q =>
          if ¬ pyHasKey m.floats p.1 = true then
            { m with floats := pyInsert m.floats p.1 q }
          else m)
    material

/-- `validate_shader_properties` from `shader_mapping.py`: the material must
own at least one signature property of the specialized shader. -/
def validate_shader_properties (shader_file : String)
    (material : UnityMaterial) : Bool :=
  if shader_file = "polygon.gdshader" then true
  else
    match pyLookup SHADER_SPECIFIC_PROPERTIES shader_file with
    | none => true
    | some specific =>
        material.tex_envs.any (fun p => p.1 ∈ specific.textures)
        || material.floats.any (fun p => p.1 ∈ specific.floats)
        || material.colors.any (fun p => p.1 ∈ specific.colors)

/-- `TEXTURE_MAPS` from `shader_mapping.py`. -/
def TEXTURE_MAPS : List (String × List (String × String)) := [
  ("foliage.gdshader", TEXTURE_MAP_FOLIAGE),
  ("polygon.gdshader", TEXTURE_MAP_POLYGON),
  ("crystal.gdshader", TEXTURE_MAP_CRYSTAL),
  ("water.gdshader", TEXTURE_MAP_WATER),
  ("particles.gdshader", TEXTURE_MAP_PARTICLES),
  ("skydome.gdshader", TEXTURE_MAP_SKYDOME),
  ("clouds.gdshader", TEXTURE_MAP_CLOUDS)]

/-- `FLOAT_MAPS` from `shader_mapping.py`. -/
def FLOAT_MAPS : List (String × List (String × String)) := [
  ("foliage.gdshader", FLOAT_MAP_FOLIAGE),
  ("polygon.gdshader", FLOAT_MAP_POLYGON),
  ("crystal.gdshader", FLOAT_MAP_CRYSTAL),
  ("water.gdshader", FLOAT_MAP_WATER),
  ("particles.gdshader", FLOAT_MAP_PARTICLES),
  ("skydome.gdshader", FLOAT_MAP_SKYDOME),
  ("clouds.gdshader", FLOAT_MAP_CLOUDS)]

/-- `COLOR_MAPS` from `shader_mapping.py`. -/
def COLOR_MAPS : List (String × List (String × String)) := [
  ("foliage.gdshader", COLOR_MAP_FOLIAGE),
  ("polygon.gdshader", COLOR_MAP_POLYGON),
  ("crystal.gdshader", COLOR_MAP_CRYSTAL),
  ("water.gdshader", COLOR_MAP_WATER),
  ("particles.gdshader", COLOR_MAP_PARTICLES),
  ("skydome.gdshader", COLOR_MAP_SKYDOME),
  ("clouds.gdshader", COLOR_MAP_CLOUDS)]

/-- Step 2 of `map_material` for textures: the shader's own map, with the
polygon map merged underneath for non-polygon shaders. -/
def mergedTextureMap (shader_file : String) : List (String × String) :=
  let m := (pyLookup TEXTURE_MAPS shader_file).getD []
  if shader_file ≠ "polygon.gdshader" then pyMerge TEXTURE_MAP_POLYGON m else m

/-- Step 2 of `map_material` for floats. -/
def mergedFloatMap (shader_file : String) : List (String × String) :=
  let m := (pyLookup FLOAT_MAPS shader_file).getD []
  if shader_file ≠ "polygon.gdshader" then pyMerge FLOAT_MAP_POLYGON m else m

/-- Step 2 of `map_material` for colors. -/
def mergedColorMap (shader_file : String) : List (String × String) :=
  let m := (pyLookup COLOR_MAPS shader_file).getD []
  if shader_file ≠ "polygon.gdshader" then pyMerge COLOR_MAP_POLYGON m else m

/-- Shader selection in step 1 of `map_material`: a non-empty
`override_shader` is used directly, otherwise full detection runs on the
material's guid, name, floats and colors. -/
def chosenShader (material : UnityMaterial) (override_shader : Option String) :
    String :=
  match override_shader with
  | some s =>
      if s ≠ "" then s
      else detect_shader_type material.shader_guid material.name
        (some material.floats)
        (some (material.colors.map (fun p => (p.1, p.2.as_tuple))))
  | none =>
      detect_shader_type material.shader_guid material.name
        (some material.floats)
        (some (material.colors.map (fun p => (p.1, p.2.as_tuple))))

/-- `map_material` from `shader_mapping.py`: detect (or take the override),
validate signature properties (falling back to the default shader), then
map textures, floats/bools and colors, and apply shader defaults. -/
def map_material (material : UnityMaterial)
    (texture_guid_map : List (String × String))
    (override_shader : Option String := none) : MappedMaterial :=
  let detected := chosenShader material override_shader
  let shader_file :=
    if ¬ validate_shader_properties detected material = true then DEFAULT_SHADER
    else detected
  let texture_map := mergedTextureMap shader_file
  let float_map := mergedFloatMap shader_file
  let color_map := mergedColorMap shader_file
  let mapped_textures := material.tex_envs.foldl
    (fun acc p =>
      match pyLookup texture_map p.1 with
      | some godot_name =>
          match pyLookup texture_guid_map p.2.guid with
          | some texture_name =>
              if texture_name ≠ "" then pyInsert acc godot_name texture_name
              else acc
          | none => acc
      | none => acc)
    []
  let fb := convert_boolean_floats material.floats float_map
  let mapped_colors := material.colors.foldl
    (fun acc p =>
      match pyLookup color_map p.1 with
      | some godot_name =>
          pyInsert acc godot_name
            (fix_alpha_zero p.2 p.1 (some material.floats)).as_tuple
      | none => acc)
    []
  apply_defaults
    { name := material.name, shader_file := shader_file,
      textures := mapped_textures, floats := fb.1, bools := fb.2,
      colors := mapped_colors }

/-!
## Manifest cache builder (`build_shader_cache` from `converter.py`)
-/

/-- `MaterialSlot` dataclass from `material_list.py`. -/
structure MaterialSlot where
  material_name : String
  texture_name : Option String := none
  uses_custom_shader : Bool := false
deriving DecidableEq

/-- `MeshMaterials` dataclass from `material_list.py`. -/
structure MeshMaterials where
  mesh_name : String
  slots : List MaterialSlot := []
deriving DecidableEq

/-- `PrefabMaterials` dataclass from `material_list.py`. -/
structure PrefabMaterials where
  prefab_name : String
  meshes : List MeshMaterials := []
deriving DecidableEq

/-- The mutable state of `build_shader_cache`: the global name→shader cache,
the unmatched list, and the per-prefab slot-index→shader map. -/
structure BuildState where
  cache : List (String × String) := []
  unmatched : List String := []
  slotShaders : List (Nat × String) := []
deriving DecidableEq

/-- The body of the slot loop of `build_shader_cache`: skip names already
cached; at LOD0 decide via `determine_shader` (recording the slot decision
and any unmatched name); at LOD1+ inherit the LOD0 decision for the same
slot index when one exists, else decide via `determine_shader`. -/
def processSlot (is_lod0 : Bool) (st : BuildState) (slot_idx : Nat)
    (slot : MaterialSlot) : BuildState :=
  let mat_name := slot.material_name
  if pyHasKey st.cache mat_name then st
  else if is_lod0 then
    let sm := determine_shader mat_name slot.uses_custom_shader
    { cache := pyInsert st.cache mat_name sm.1,
      unmatched := if sm.2 then st.unmatched else st.unmatched ++ [mat_name],
      slotShaders := pyInsertNat st.slotShaders slot_idx sm.1 }
  else
    match pyLookupNat st.slotShaders slot_idx with
    | some shader => { st with cache := pyInsert st.cache mat_name shader }
    | none =>
        let sm := determine_shader mat_name slot.uses_custom_shader
        { st with
          cache := pyInsert st.cache mat_name sm.1,
          unmatched := if sm.2 then st.unmatched else st.unmatched ++ [mat_name] }

/-- The mesh loop of `build_shader_cache`: slots are processed in order with
their indices; the first mesh of a prefab is LOD0. -/
def processMesh (st : BuildState) (mesh_idx : Nat) (mesh : MeshMaterials) :
    BuildState :=
  (mesh.slots.enum).foldl
    (fun s p => processSlot (mesh_idx == 0) s p.1 p.2) st

/-- The prefab loop of `build_shader_cache`: the per-prefab slot-index map
is reset for each prefab, then the meshes are processed in declared order. -/
def processPrefab (st : BuildState) (prefab : PrefabMaterials) : BuildState :=
  (prefab.meshes.enum).foldl
    (fun s p => processMesh s p.1 p.2)
    { st with slotShaders := [] }

/-- `build_shader_cache` from `converter.py`: shader decision cache plus
unmatched materials, built over all prefabs with LOD inheritance. -/
def build_shader_cache (prefabs : List PrefabMaterials) :
    (List (String × String)) × List String :=
  let st := prefabs.foldl processPrefab {}
  (st.cache, st.unmatched)

/-!
## Definitions supporting the claims
-/

/-- The six specialized shader targets scored by the property tier of
`detect_shader_type`, in the order the tier visits them. -/
def SPECIALIZED_TARGETS : List String := [
  "water.gdshader", "foliage.gdshader", "clouds.gdshader",
  "particles.gdshader", "skydome.gdshader", "crystal.gdshader"]

/-- Number of diagnostic float/color property names of a specialized target
that are present in the material (the counts of the property tier). -/
def diagCount (t : String) (floats : List (String × ℚ))
    (colors : List (String × (ℚ × ℚ × ℚ × ℚ))) : Nat :=
  if t = "water.gdshader" then
    countIn water_float_props floats + countIn water_color_props colors
  else if t = "foliage.gdshader" then
    countIn foliage_float_props floats + countIn foliage_color_props colors
  else if t = "clouds.gdshader" then
    countIn clouds_float_props floats + countIn clouds_color_props colors
  else if t = "particles.gdshader" then
    countIn particles_float_props floats
  else if t = "skydome.gdshader" then
    countIn skydome_float_props floats + countIn skydome_color_props colors
  else if t = "crystal.gdshader" then
    countIn crystal_float_props floats + countIn crystal_color_props colors
  else 0

/-- The seven shader targets (the keys of the property-map tables). -/
def ALL_SHADERS : List String := [
  "foliage.gdshader", "polygon.gdshader", "crystal.gdshader",
  "water.gdshader", "particles.gdshader", "skydome.gdshader",
  "clouds.gdshader"]

/-- The derived snake_case names of the boolean float properties
(`BOOLEAN_FLOAT_PROPERTIES.map unity_to_godot_name`, spelled out). -/
def derivedBoolNames : List String := [
  "enable_breeze", "enable_light_wind", "enable_strong_wind",
  "enable_wind_twist", "enable_frosting", "wind_enabled", "leaves_wave",
  "tree_wave", "enable_fresnel", "enable_side_fresnel", "enable_depth",
  "enable_refraction", "enable_triplanar", "enable_triplanar_texture",
  "enable_snow", "enable_emission", "enable_normals", "alpha_clip",
  "enable_hologram", "enable_ghost", "use_metallic_map",
  "use_weather_controller", "use_vertex_color_wind",
  "randomize_flipbook_from_location", "enable_u_v_distortion",
  "enable_brightness_breakup", "enable_wave", "enable_detail_map",
  "enable_parallax", "enable_a_o", "enable_shore_wave_foam",
  "enable_shore_foam", "enable_shore_waves", "enable_ocean_waves",
  "enable_ocean_wave", "enable_caustics", "enable_distortion",
  "vertex_offset_toggle", "enable_soft_particles", "enable_camera_fade",
  "enable_scene_fog", "enable_u_v_based", "use_environment_override",
  "enable_fog", "enable_scattering"]

/-- The Unity material of the spec's end-to-end example: name
`Crystal_Gem_01`, empty GUID, no textures, floats or colors. -/
def crystalGemMaterial : UnityMaterial :=
  { name := "Crystal_Gem_01", shader_guid := "" }

/-- A property-less material whose name matches no pattern. -/
def plainMaterial : UnityMaterial := { name := "X", shader_guid := "" }

/-!
## Lemmas
-/

-- Basic lemmas about the dict model.

theorem pyLookup_pyInsert_ne {α : Type} (d : List (String × α)) (k n : String)
    (v : α) (h : n ≠ k) : pyLookup (pyInsert d k v) n = pyLookup d n := by
  have hkn : ¬ (k = n) := fun hk => h (Eq.symm hk)
  induction d with
  | nil => simp [pyInsert, pyLookup, hkn]
  | cons p rest ih =>
      obtain ⟨k2, w⟩ := p
      by_cases hk : k2 = k
      · subst hk
        simp only [pyInsert, if_pos rfl]
        simp [pyLookup, hkn]
      · simp only [pyInsert, if_neg hk, pyLookup]
        by_cases hn : k2 = n
        · simp [hn]
        · simp [hn, ih]

theorem pyLookup_pyInsert_self {α : Type} (d : List (String × α))
    (k : String) (v : α) : pyLookup (pyInsert d k v) k = some v := by
  induction d with
  | nil => simp [pyInsert, pyLookup]
  | cons p rest ih =>
      obtain ⟨k2, w⟩ := p
      by_cases hk : k2 = k
      · simp [pyInsert, hk, pyLookup]
      · simp [pyInsert, hk, pyLookup, ih]

theorem pyLookup_mem {α : Type} {d : List (String × α)} {k : String} {v : α}
    (h : pyLookup d k = some v) : (k, v) ∈ d := by
  induction d with
  | nil => simp [pyLookup] at h
  | cons p rest ih =>
      obtain ⟨k2, w⟩ := p
      by_cases hk : k2 = k
      · subst hk
        simp [pyLookup] at h
        rw [← h]
        exact List.mem_cons_self _ _
      · simp only [pyLookup, if_neg hk] at h
        exact List.mem_cons_of_mem _ (ih h)


/-- The element `bestEntry` selects is one of the scored entries. -/
theorem bestEntry_mem (x : String × Nat) (xs : List (String × Nat)) :
    bestEntry x xs ∈ x :: xs := by
  induction xs generalizing x with
  | nil => simp [bestEntry]
  | cons y ys ih =>
      have h : bestEntry x (y :: ys) = bestEntry (if x.2 < y.2 then y else x) ys :=
        rfl
      rw [h]
      rcases List.mem_cons.mp (ih (if x.2 < y.2 then y else x)) with h1 | h1
      · rw [h1]
        by_cases hxy : x.2 < y.2
        · simp [hxy]
        · simp [hxy]
      · exact List.mem_cons_of_mem _ (List.mem_cons_of_mem _ h1)

/-!
## The claims
-/

/-- C10: for every input color, property name, and floats argument, the
alpha-fix function `_fix_alpha_zero` leaves the r, g and b components of the
color unchanged, and the output alpha is either the input alpha or
exactly 1.0. -/
theorem C10_alpha_fix_frame (c : Color) (name : String)
    (floats : Option (List (String × ℚ))) :
    (fix_alpha_zero c name floats).r = c.r ∧
    (fix_alpha_zero c name floats).g = c.g ∧
    (fix_alpha_zero c name floats).b = c.b ∧
    ((fix_alpha_zero c name floats).a = c.a ∨
      (fix_alpha_zero c name floats).a = 1) := by
  rcases floats with _ | fl
  · simp only [fix_alpha_zero, alphaFixCore]
    split_ifs <;> simp
  · simp only [fix_alpha_zero, alphaFixCore]
    split_ifs <;> simp

/-- C6: a color under a property name in `ALPHA_FIX_PROPERTIES`, with alpha
exactly 0, at least one non-zero RGB component, and no `_Mode` float ≥ 1 in
the material's floats, gets output alpha 1.0; a color under a name not in
the set, or processed while a `_Mode` float ≥ 1 is present, is returned
unchanged. -/
theorem C6_alpha_fix_rule (c : Color) (name : String)
    (floats : List (String × ℚ)) :
    ((name ∈ ALPHA_FIX_PROPERTIES ∧ c.a = 0 ∧ c.has_rgb = true ∧
        ¬ (1 : ℚ) ≤ (pyLookup floats "_Mode").getD 0) →
      (fix_alpha_zero c name (some floats)).a = 1) ∧
    ((name ∉ ALPHA_FIX_PROPERTIES ∨
        (1 : ℚ) ≤ (pyLookup floats "_Mode").getD 0) →
      fix_alpha_zero c name (some floats) = c) := by
  constructor
  · rintro ⟨h1, h2, h3, h4⟩
    simp only [fix_alpha_zero, alphaFixCore]
    rw [if_neg h4, if_pos h1, if_pos ⟨h2, h3⟩]
  · intro h
    simp only [fix_alpha_zero, alphaFixCore]
    rcases h with h | h
    · by_cases hm : (1 : ℚ) ≤ (pyLookup floats "_Mode").getD 0
      · rw [if_pos hm]
      · rw [if_neg hm, if_neg h]
    · rw [if_pos h]

/-- C6 witness: `Color(0.5, 0.3, 0.2, 0.0)` under the fix-listed `_Color`
with no floats becomes alpha 1, and under the unlisted `_SomeOther` it is
unchanged. -/
theorem C6_alpha_fix_rule_witness :
    (fix_alpha_zero { r := qlit 1 2, g := qlit 3 10, b := qlit 1 5, a := 0 }
      "_Color" (some [])).a = 1 ∧
    fix_alpha_zero { r := qlit 1 2, g := qlit 3 10, b := qlit 1 5, a := 0 }
      "_SomeOther" (some []) =
      { r := qlit 1 2, g := qlit 3 10, b := qlit 1 5, a := 0 } :=
  ⟨(C6_alpha_fix_rule
      { r := qlit 1 2, g := qlit 3 10, b := qlit 1 5, a := 0 } "_Color" []).1
      ⟨by decide, by decide, by decide, by decide⟩,
   (C6_alpha_fix_rule
      { r := qlit 1 2, g := qlit 3 10, b := qlit 1 5, a := 0 } "_SomeOther"
      []).2 (Or.inl (by decide))⟩

/-- C3: a shader GUID mapped by `SHADER_GUID_MAP` to a non-default target
makes `detect_shader_type` return that target for every material name and
every floats/colors argument — the GUID tier short-circuits everything. -/
theorem C3_guid_short_circuit (guid t name : String)
    (floats : Option (List (String × ℚ)))
    (colors : Option (List (String × (ℚ × ℚ × ℚ × ℚ))))
    (h1 : pyLookup SHADER_GUID_MAP guid = some t) (h2 : t ≠ DEFAULT_SHADER) :
    detect_shader_type guid name floats colors = t := by
  simp only [detect_shader_type, h1]
  rw [if_neg h2]

/-- C3 witness: the Synty Crystal GUID beats the adversarial name
`Water_Ocean_Triplanar_01` and water-diagnostic properties. -/
theorem C3_guid_short_circuit_witness :
    detect_shader_type "5808064c5204e554c89f589a7059c558"
      "Water_Ocean_Triplanar_01" (some [("_Maximum_Depth", 1)]) (some []) =
      "crystal.gdshader" :=
  C3_guid_short_circuit "5808064c5204e554c89f589a7059c558" "crystal.gdshader"
    "Water_Ocean_Triplanar_01" (some [("_Maximum_Depth", 1)]) (some [])
    (by decide) (by decide)

/-- C5: when the GUID tier found nothing or only the default shader, and
every accumulated name-plus-property score is below 20, `detect_shader_type`
returns the GUID-tier result when the GUID was found (even the default),
and the default shader otherwise — never a near-winning specialized
target. -/
theorem C5_threshold_fallback (guid name : String)
    (floats : Option (List (String × ℚ)))
    (colors : Option (List (String × (ℚ × ℚ × ℚ × ℚ))))
    (hguid : pyLookup SHADER_GUID_MAP guid = none ∨
      pyLookup SHADER_GUID_MAP guid = some DEFAULT_SHADER)
    (hscores : ∀ p ∈ detectScores name floats colors, p.2 < 20) :
    detect_shader_type guid name floats colors =
      (pyLookup SHADER_GUID_MAP guid).getD DEFAULT_SHADER := by
  have hbelow : ∀ gs : Option String,
      detectFromScores gs (detectScores name floats colors) =
        gs.getD DEFAULT_SHADER := by
    intro gs
    cases hsc : detectScores name floats colors with
    | nil => simp [detectFromScores]
    | cons x xs =>
        have hmem := bestEntry_mem x xs
        rw [← hsc] at hmem
        have hlt := hscores _ hmem
        have hnot : ¬ 20 ≤ (bestEntry x xs).2 := by omega
        simp [detectFromScores, hnot]
  rcases hguid with h | h
  · simp only [detect_shader_type, h]
    rw [hbelow none]
  · simp only [detect_shader_type, h]
    rw [hbelow (some DEFAULT_SHADER)]
    simp

/-- C5 witness: the name `Moss_Mat` accumulates only 15 points (below the
threshold of 20) and the Unity URP-Lit GUID maps to the default shader, so
the GUID-tier default is returned. -/
theorem C5_threshold_fallback_witness :
    detect_shader_type "933532a4fcc9baf4fa0491de14d08ed7" "Moss_Mat"
      none none = "polygon.gdshader" :=
  C5_threshold_fallback "933532a4fcc9baf4fa0491de14d08ed7" "Moss_Mat"
    none none (Or.inr (by decide)) (by decide)

/-- `_apply_defaults` never changes the target shader. -/
theorem apply_defaults_shader_file (m : MappedMaterial) :
    (apply_defaults m).shader_file = m.shader_file := by
  unfold apply_defaults
  generalize (pyLookup SHADER_DEFAULTS m.shader_file).getD [] = ds
  induction ds generalizing m with
  | nil => rfl
  | cons d rest ih =>
      rw [List.foldl_cons, ih]
      rcases d with ⟨dn, dv⟩
      cases dv <;> (simp only []; split_ifs <;> rfl)

/-- C1 counterexample: mapping the Unity material
`{name: "Crystal_Gem_01", shader_guid: "", floats: {}, colors: {}}` with no
override shader does NOT produce the Crystal target (and its floats are not
`{opacity: 0.7}`): the empty material has no crystal signature property, so
`map_material` downgrades the name-detected Crystal target to the default
polygon shader. -/
theorem C1_counterexample :
    (map_material crystalGemMaterial [] none).shader_file ≠
      "crystal.gdshader" ∧
    (map_material crystalGemMaterial [] none).floats ≠
      [("opacity", qlit 7 10)] := by
  constructor
  · decide
  · decide

/-- C1 (amended): mapping the Unity material `{name: "Crystal_Gem_01",
shader_guid: "", floats: {}, colors: {}}` with `map_material` (no override
shader) classifies to Crystal by name but is downgraded by signature
validation, yielding a MappedMaterial whose target shader is the default
`polygon.gdshader` and whose floats map is exactly
`{smoothness: 0.5, metallic: 0.0}` (the polygon defaults) with empty
textures, colors, and bools. -/
theorem C1_end_to_end_actual :
    map_material crystalGemMaterial [] none =
      { name := "Crystal_Gem_01", shader_file := "polygon.gdshader",
        textures := [], floats := [("smoothness", qlit 1 2), ("metallic", 0)],
        bools := [], colors := [] } := by
  decide

/-- C2 counterexample: a target supplied as `override_shader` is NOT used
verbatim: overriding with the Crystal shader on a material that has none of
the crystal signature properties still yields the default polygon shader,
because `map_material` runs `validate_shader_properties` unconditionally. -/
theorem C2_counterexample :
    (map_material plainMaterial [] (some "crystal.gdshader")).shader_file ≠
      "crystal.gdshader" := by
  decide

/-- C2 (amended): the signature-property validation in `map_material` is
applied unconditionally — whenever the chosen target (whether reached via
`override_shader`, a direct GUID hit, or the name-pattern/property tiers)
fails `validate_shader_properties`, the output's target shader is
downgraded to the default polygon shader. -/
theorem C2_validation_applies_always (m : UnityMaterial)
    (tmap : List (String × String)) (ov : Option String)
    (h : validate_shader_properties (chosenShader m ov) m = false) :
    (map_material m tmap ov).shader_file = DEFAULT_SHADER := by
  simp [map_material, apply_defaults_shader_file, h]

/-- C2 (amended) witness: the override of the Crystal shader on the
property-less material `X` is downgraded to polygon. -/
theorem C2_validation_applies_always_witness :
    (map_material plainMaterial [] (some "crystal.gdshader")).shader_file =
      DEFAULT_SHADER :=
  C2_validation_applies_always plainMaterial [] (some "crystal.gdshader")
    (by decide)

/-- Accumulating a score changes only the accumulated entry. -/
theorem scoreOf_addScore (s : List (String × Nat)) (k : String) (v : Nat)
    (t : String) :
    scoreOf (addScore s k v) t = scoreOf s t + if t = k then v else 0 := by
  unfold addScore scoreOf
  by_cases h : t = k
  · subst h
    rw [pyLookup_pyInsert_self]
    simp
  · rw [pyLookup_pyInsert_ne _ _ _ _ h]
    simp [h]

/-- A guarded property-tier addition adds `c * 10` to its own target and
nothing to any other target (also when the count is zero). -/
theorem scoreOf_condAddProps (s : List (String × Nat)) (k : String) (c : Nat)
    (t : String) :
    scoreOf (condAddProps s k c) t =
      scoreOf s t + if t = k then c * 10 else 0 := by
  unfold condAddProps
  by_cases hc : 0 < c
  · rw [if_pos hc, scoreOf_addScore]
  · rw [if_neg hc]
    have hc0 : c = 0 := by omega
    subst hc0
    simp

/-- C4 counterexample: with no floats and the two colors `_Top_Color` and
`_Bottom_Color`, the property tier adds 40 points to the skydome target —
not the 20 points (2 diagnostic properties × 10) the claim predicts —
because of the both-gradient-colors bonus. -/
theorem C4_counterexample :
    scoreOf (propertyScores [] []
        [("_Top_Color", (0, 0, 0, 0)), ("_Bottom_Color", (0, 0, 0, 0))])
      "skydome.gdshader" ≠
    scoreOf ([] : List (String × Nat)) "skydome.gdshader" +
      diagCount "skydome.gdshader" []
        [("_Top_Color", (0, 0, 0, 0)), ("_Bottom_Color", (0, 0, 0, 0))] * 10 := by
  decide

/-- C4 (amended): the property tier adds exactly (number of diagnostic
float/color properties present) × 10 to each specialized target, except
that the skydome target receives an extra 20 points (a bonus of 2 on its
count) when both `_Top_Color` and `_Bottom_Color` are present in the
material's colors. -/
theorem C4_property_tier_scores (s0 : List (String × Nat))
    (floats : List (String × ℚ)) (colors : List (String × (ℚ × ℚ × ℚ × ℚ)))
    (t : String) (ht : t ∈ SPECIALIZED_TARGETS) :
    scoreOf (propertyScores s0 floats colors) t =
      scoreOf s0 t + diagCount t floats colors * 10 +
        (if t = "skydome.gdshader" ∧ pyHasKey colors "_Top_Color" = true ∧
            pyHasKey colors "_Bottom_Color" = true then 20 else 0) := by
  fin_cases ht <;>
    simp [propertyScores, scoreOf_condAddProps, diagCount] <;>
    split_ifs <;> omega

/-- C4 (amended) witness: one water diagnostic float (`_Maximum_Depth`)
adds exactly 10 points to the water target. -/
theorem C4_property_tier_scores_witness :
    scoreOf (propertyScores [] [("_Maximum_Depth", 1)] []) "water.gdshader" =
      scoreOf ([] : List (String × Nat)) "water.gdshader" +
        diagCount "water.gdshader" [("_Maximum_Depth", 1)] [] * 10 +
        (if "water.gdshader" = "skydome.gdshader" ∧
            pyHasKey ([] : List (String × (ℚ × ℚ × ℚ × ℚ))) "_Top_Color" = true ∧
            pyHasKey ([] : List (String × (ℚ × ℚ × ℚ × ℚ))) "_Bottom_Color" = true
          then 20 else 0) :=
  C4_property_tier_scores [] [("_Maximum_Depth", 1)] [] "water.gdshader"
    (by decide)

/-- A cache binding survives one slot step: `processSlot` only ever inserts
a material name that is not yet cached. -/
theorem processSlot_preserves (is_lod0 : Bool) (st : BuildState)
    (slot_idx : Nat) (slot : MaterialSlot) (n s : String)
    (h : pyLookup st.cache n = some s) :
    pyLookup (processSlot is_lod0 st slot_idx slot).cache n = some s := by
  unfold processSlot
  by_cases hc : pyHasKey st.cache slot.material_name = true
  · rw [if_pos hc]
    exact h
  · have hne : n ≠ slot.material_name := by
      intro he
      rw [he] at h
      simp [pyHasKey, h] at hc
    rw [if_neg hc]
    by_cases hl : is_lod0 = true
    · rw [if_pos hl]
      simp only []
      rw [pyLookup_pyInsert_ne _ _ _ _ hne, h]
    · rw [if_neg hl]
      cases pyLookupNat st.slotShaders slot_idx with
      | some sh => simp only []; rw [pyLookup_pyInsert_ne _ _ _ _ hne, h]
      | none => simp only []; rw [pyLookup_pyInsert_ne _ _ _ _ hne, h]

/-- A cache binding survives a whole mesh. -/
theorem processMesh_preserves (st : BuildState) (mesh_idx : Nat)
    (mesh : MeshMaterials) (n s : String)
    (h : pyLookup st.cache n = some s) :
    pyLookup (processMesh st mesh_idx mesh).cache n = some s := by
  unfold processMesh
  generalize mesh.slots.enum = l
  induction l generalizing st with
  | nil => exact h
  | cons p rest ih =>
      rw [List.foldl_cons]
      exact ih _ (processSlot_preserves _ _ _ _ _ _ h)

/-- A cache binding survives a whole prefab. -/
theorem processPrefab_preserves (st : BuildState) (prefab : PrefabMaterials)
    (n s : String) (h : pyLookup st.cache n = some s) :
    pyLookup (processPrefab st prefab).cache n = some s := by
  unfold processPrefab
  generalize prefab.meshes.enum = l
  generalize hst2 : ({ st with slotShaders := [] } : BuildState) = st2
  have h2 : pyLookup st2.cache n = some s := by rw [← hst2]; exact h
  clear hst2 h
  induction l generalizing st2 with
  | nil => exact h2
  | cons p rest ih =>
      rw [List.foldl_cons]
      exact ih _ (processMesh_preserves _ _ _ _ _ h2)

/-- C8: at a mesh of index > 0 (`is_lod0 = false`), a slot whose material
name is not yet globally cached and whose slot index was decided at LOD0
within the prefab inherits the LOD0 decision directly into the global
cache: no call to the name classifier is made (the result does not depend
on the slot's name or custom-shader flag), and the unmatched list and the
per-prefab slot map are unchanged. -/
theorem C8_lod_inheritance (st : BuildState) (slot_idx : Nat)
    (slot : MaterialSlot) (shader : String)
    (hnot : pyHasKey st.cache slot.material_name = false)
    (hslot : pyLookupNat st.slotShaders slot_idx = some shader) :
    processSlot false st slot_idx slot =
      { st with cache := pyInsert st.cache slot.material_name shader } := by
  unfold processSlot
  rw [if_neg (by rw [hnot]; exact Bool.false_ne_true), if_neg Bool.false_ne_true,
    hslot]

/-- C8 witness: a LOD1 slot named `Zzz_Mat` (a name matching no pattern,
flagged custom-shader) inherits the crystal decision recorded for slot 0 at
LOD0, with no unmatched entry. -/
theorem C8_lod_inheritance_witness :
    processSlot false
      { cache := [("Crystal_Mat", "crystal.gdshader")], unmatched := [],
        slotShaders := [(0, "crystal.gdshader")] } 0
      { material_name := "Zzz_Mat", uses_custom_shader := true } =
      { cache := [("Crystal_Mat", "crystal.gdshader"),
          ("Zzz_Mat", "crystal.gdshader")],
        unmatched := [], slotShaders := [(0, "crystal.gdshader")] } := by
  rw [C8_lod_inheritance
    { cache := [("Crystal_Mat", "crystal.gdshader")], unmatched := [],
      slotShaders := [(0, "crystal.gdshader")] } 0
    { material_name := "Zzz_Mat", uses_custom_shader := true }
    "crystal.gdshader" (by decide) (by decide)]
  decide

/-- C9: once a material name is bound in the global cache, it is never
overwritten — the binding survives any single slot step and any remaining
run of `build_shader_cache`'s prefab fold. -/
theorem C9_first_decision_wins :
    (∀ (is_lod0 : Bool) (st : BuildState) (slot_idx : Nat)
        (slot : MaterialSlot) (n s : String),
      pyLookup st.cache n = some s →
      pyLookup (processSlot is_lod0 st slot_idx slot).cache n = some s) ∧
    (∀ (st : BuildState) (prefabs : List PrefabMaterials) (n s : String),
      pyLookup st.cache n = some s →
      pyLookup (prefabs.foldl processPrefab st).cache n = some s) := by
  constructor
  · exact processSlot_preserves
  · intro st prefabs n s h
    induction prefabs generalizing st with
    | nil => exact h
    | cons p rest ih =>
        rw [List.foldl_cons]
        exact ih _ (processPrefab_preserves _ _ _ _ h)

/-- C9 witness: a cache that already maps `Mat_A` to crystal keeps that
binding across a later prefab whose LOD0 would decide `Mat_A` as polygon. -/
theorem C9_first_decision_wins_witness :
    pyLookup (([{ prefab_name := "P2", meshes := [
        { mesh_name := "M", slots := [
          { material_name := "Mat_A", uses_custom_shader := false }] }] }] :
        List PrefabMaterials).foldl processPrefab
      { cache := [("Mat_A", "crystal.gdshader")], unmatched := [],
        slotShaders := [] }).cache "Mat_A" = some "crystal.gdshader" :=
  C9_first_decision_wins.2
    { cache := [("Mat_A", "crystal.gdshader")], unmatched := [],
      slotShaders := [] }
    [{ prefab_name := "P2", meshes := [
        { mesh_name := "M", slots := [
          { material_name := "Mat_A", uses_custom_shader := false }] }] }]
    "Mat_A" "crystal.gdshader" (by decide)

/-- Key membership after a dict assignment. -/
theorem pyHasKey_pyInsert {α : Type} (d : List (String × α)) (k n : String)
    (v : α) :
    pyHasKey (pyInsert d k v) n = (pyHasKey d n || decide (n = k)) := by
  by_cases h : n = k
  · subst h
    unfold pyHasKey
    rw [pyLookup_pyInsert_self]
    simp
  · unfold pyHasKey
    rw [pyLookup_pyInsert_ne _ _ _ _ h]
    simp [h]

/-- Key membership on a cons cell. -/
theorem pyHasKey_cons {α : Type} (p : String × α) (rest : List (String × α))
    (k : String) :
    pyHasKey (p :: rest) k = (decide (p.1 = k) || pyHasKey rest k) := by
  rcases p with ⟨k2, w⟩
  unfold pyHasKey
  by_cases h : k2 = k
  · simp [pyLookup, h]
  · simp [pyLookup, h]

/-- A merged dict has exactly the keys of the two parts. -/
theorem pyHasKey_pyMerge {α : Type} (a b : List (String × α)) (k : String) :
    pyHasKey (pyMerge a b) k = (pyHasKey a k || pyHasKey b k) := by
  induction b generalizing a with
  | nil => simp [pyMerge, pyHasKey, pyLookup]
  | cons p rest ih =>
      show pyHasKey (pyMerge (pyInsert a p.1 p.2) rest) k = _
      rw [ih, pyHasKey_pyInsert, pyHasKey_cons]
      by_cases h : k = p.1
      · subst h
        simp
      · have h2 : ¬ p.1 = k := fun he => h he.symm
        simp [h, h2]

/-- A value present after a dict assignment was present before or is the
assigned value. -/
theorem pyInsert_snd_mem {α : Type} (d : List (String × α)) (k : String)
    (x : α) (v : α) (h : v ∈ (pyInsert d k x).map Prod.snd) :
    v ∈ d.map Prod.snd ∨ v = x := by
  induction d with
  | nil =>
      right
      simpa [pyInsert] using h
  | cons p rest ih =>
      rcases p with ⟨k2, w⟩
      by_cases hk : k2 = k
      · rw [show pyInsert ((k2, w) :: rest) k x = (k2, x) :: rest from by
            simp [pyInsert, hk]] at h
        rw [List.map_cons, List.mem_cons] at h
        rcases h with h | h
        · right; exact h
        · left
          rw [List.map_cons, List.mem_cons]
          right; exact h
      · rw [show pyInsert ((k2, w) :: rest) k x = (k2, w) :: pyInsert rest k x
            from by simp [pyInsert, hk]] at h
        rw [List.map_cons, List.mem_cons] at h
        rcases h with h | h
        · left
          rw [List.map_cons, List.mem_cons]
          left; exact h
        · rcases ih h with h2 | h2
          · left
            rw [List.map_cons, List.mem_cons]
            right; exact h2
          · right; exact h2

/-- A value of a merged dict is a value of one of the two parts. -/
theorem pyMerge_snd_mem {α : Type} (a b : List (String × α)) (v : α)
    (h : v ∈ (pyMerge a b).map Prod.snd) :
    v ∈ a.map Prod.snd ∨ v ∈ b.map Prod.snd := by
  induction b generalizing a with
  | nil => left; exact h
  | cons p rest ih =>
      have h2 : v ∈ (pyMerge (pyInsert a p.1 p.2) rest).map Prod.snd := h
      rcases ih (pyInsert a p.1 p.2) h2 with h3 | h3
      · rcases pyInsert_snd_mem a p.1 p.2 v h3 with h4 | h4
        · left; exact h4
        · right; rw [h4]; simp
      · right
        simp only [List.map_cons, List.mem_cons]
        right
        exact h3

/-- When the float map does not know the property, the boolean target name
is the derived snake_case name. -/
theorem godotNameFor_of_no_key (fm : List (String × String)) (k : String)
    (h : pyHasKey fm k = false) :
    godotNameFor fm k = unity_to_godot_name k := by
  unfold godotNameFor
  cases hl : pyLookup fm k with
  | none => rfl
  | some g =>
      unfold pyHasKey at h
      rw [hl] at h
      simp at h

/-- The derived names of the boolean float properties, computed. -/
theorem derivedBoolNames_spec :
    BOOLEAN_FLOAT_PROPERTIES.map unity_to_godot_name = derivedBoolNames := by
  decide

/-- No two boolean float properties derive the same snake_case name. -/
theorem derivedBoolNames_nodup : derivedBoolNames.Nodup := by decide

/-- No shader's float map has a boolean float property among its keys. -/
theorem float_maps_no_bool_keys :
    ∀ k ∈ BOOLEAN_FLOAT_PROPERTIES,
      pyHasKey FLOAT_MAP_FOLIAGE k = false ∧
      pyHasKey FLOAT_MAP_POLYGON k = false ∧
      pyHasKey FLOAT_MAP_CRYSTAL k = false ∧
      pyHasKey FLOAT_MAP_WATER k = false ∧
      pyHasKey FLOAT_MAP_PARTICLES k = false ∧
      pyHasKey FLOAT_MAP_SKYDOME k = false ∧
      pyHasKey FLOAT_MAP_CLOUDS k = false := by
  decide

/-- No shader's float map maps any property to a derived boolean name. -/
theorem float_maps_values_not_derived :
    ∀ t ∈ derivedBoolNames,
      t ∉ FLOAT_MAP_FOLIAGE.map Prod.snd ∧
      t ∉ FLOAT_MAP_POLYGON.map Prod.snd ∧
      t ∉ FLOAT_MAP_CRYSTAL.map Prod.snd ∧
      t ∉ FLOAT_MAP_WATER.map Prod.snd ∧
      t ∉ FLOAT_MAP_PARTICLES.map Prod.snd ∧
      t ∉ FLOAT_MAP_SKYDOME.map Prod.snd ∧
      t ∉ FLOAT_MAP_CLOUDS.map Prod.snd := by
  decide

/-- When no remaining float property is a boolean property whose target
name is `t`, the bools entry at `t` is frozen over the rest of the fold. -/
theorem conv_bools_frozen (fm : List (String × String))
    (floats : List (String × ℚ)) (t : String)
    (h : ∀ k v, (k, v) ∈ floats → k ∈ BOOLEAN_FLOAT_PROPERTIES →
      godotNameFor fm k ≠ t) :
    ∀ acc, pyLookup (List.foldl (convStep fm) acc floats).2 t =
      pyLookup acc.2 t := by
  induction floats with
  | nil => intro acc; rfl
  | cons p rest ih =>
      intro acc
      rw [List.foldl_cons]
      rw [ih (fun k v hm hb => h k v (List.mem_cons_of_mem _ hm) hb)]
      unfold convStep
      by_cases hb : p.1 ∈ BOOLEAN_FLOAT_PROPERTIES
      · rw [if_pos hb]
        have hne : godotNameFor fm p.1 ≠ t :=
          h p.1 p.2 (List.mem_cons_self _ _) hb
        exact pyLookup_pyInsert_ne _ _ _ _ (fun he => hne he.symm)
      · rw [if_neg hb]
        cases pyLookup fm p.1 <;> rfl

/-- The bools entry a boolean float property ends up under carries exactly
`value != 0.0`, provided no other boolean property in the material shares
its target name. -/
theorem conv_bools_value (fm : List (String × String))
    (floats : List (String × ℚ)) (k : String) (v : ℚ)
    (hmem : (k, v) ∈ floats) (hk : k ∈ BOOLEAN_FLOAT_PROPERTIES)
    (hnd : (floats.map Prod.fst).Nodup)
    (hinj : ∀ k2 v2, (k2, v2) ∈ floats → k2 ∈ BOOLEAN_FLOAT_PROPERTIES →
      godotNameFor fm k2 = godotNameFor fm k → k2 = k) :
    ∀ acc, pyLookup (List.foldl (convStep fm) acc floats).2
        (godotNameFor fm k) = some (decide (v ≠ 0)) := by
  induction floats with
  | nil => cases hmem
  | cons p rest ih =>
      intro acc
      rw [List.foldl_cons]
      rcases List.mem_cons.mp hmem with heq | hrest
      · have hfst : p.1 = k := by rw [← heq]
        have hnotin : k ∉ rest.map Prod.fst := by
          rw [List.map_cons, List.nodup_cons] at hnd
          rw [← hfst]
          exact hnd.1
        have hfrozen : ∀ k2 v2, (k2, v2) ∈ rest →
            k2 ∈ BOOLEAN_FLOAT_PROPERTIES →
            godotNameFor fm k2 ≠ godotNameFor fm k := by
          intro k2 v2 hm hb he
          have hk2 : k2 = k := hinj k2 v2 (List.mem_cons_of_mem _ hm) hb he
          subst hk2
          exact hnotin (List.mem_map_of_mem Prod.fst hm)
        rw [conv_bools_frozen fm rest _ hfrozen]
        unfold convStep
        rw [← heq]
        simp only [if_pos hk]
        exact pyLookup_pyInsert_self _ _ _
      · have hnd2 : (rest.map Prod.fst).Nodup := by
          rw [List.map_cons, List.nodup_cons] at hnd
          exact hnd.2
        exact ih hrest hnd2
          (fun k2 v2 hm hb he => hinj k2 v2 (List.mem_cons_of_mem _ hm) hb he)
          (convStep fm acc p)

/-- When no float-map value equals `t`, the floats output never gains the
key `t` over the fold. -/
theorem conv_rem_frozen (fm : List (String × String))
    (floats : List (String × ℚ)) (t : String)
    (h : ∀ k2 g, pyLookup fm k2 = some g → g ≠ t) :
    ∀ acc, pyHasKey (List.foldl (convStep fm) acc floats).1 t =
      pyHasKey acc.1 t := by
  induction floats with
  | nil => intro acc; rfl
  | cons p rest ih =>
      intro acc
      rw [List.foldl_cons, ih]
      unfold convStep
      by_cases hb : p.1 ∈ BOOLEAN_FLOAT_PROPERTIES
      · rw [if_pos hb]
      · rw [if_neg hb]
        cases hl : pyLookup fm p.1 with
        | none => rfl
        | some g =>
            unfold pyHasKey
            have hne : t ≠ g := fun he => h p.1 g hl he.symm
            rw [pyLookup_pyInsert_ne _ _ _ _ hne]

/-- Float properties that are neither boolean-listed nor float-map keys
contribute nothing to the fold: filtering them away changes nothing. -/
theorem conv_drops_unmapped (fm : List (String × String))
    (floats : List (String × ℚ)) :
    ∀ acc, List.foldl (convStep fm) acc floats =
      List.foldl (convStep fm) acc
        (floats.filter (fun p => p.1 ∈ BOOLEAN_FLOAT_PROPERTIES ∨
          pyHasKey fm p.1 = true)) := by
  induction floats with
  | nil => intro acc; rfl
  | cons p rest ih =>
      intro acc
      by_cases hp : (p.1 ∈ BOOLEAN_FLOAT_PROPERTIES ∨ pyHasKey fm p.1 = true)
      · rw [List.filter_cons_of_pos (by simpa using hp), List.foldl_cons,
          List.foldl_cons]
        exact ih _
      · rw [List.filter_cons_of_neg (by simpa using hp), List.foldl_cons]
        have h1 : p.1 ∉ BOOLEAN_FLOAT_PROPERTIES := fun hb => hp (Or.inl hb)
        have h2 : pyLookup fm p.1 = none := by
          cases hl : pyLookup fm p.1 with
          | none => rfl
          | some g =>
              exact absurd (Or.inr (by unfold pyHasKey; rw [hl]; rfl)) hp
        have hstep : convStep fm acc p = acc := by
          unfold convStep
          rw [if_neg h1, h2]
        rw [hstep]
        exact ih _

/-- No merged float map has a boolean float property among its keys, so in
`map_material` every boolean property gets its derived name. -/
theorem merged_no_bool_keys (shader : String) (hs : shader ∈ ALL_SHADERS) :
    ∀ k ∈ BOOLEAN_FLOAT_PROPERTIES,
      pyHasKey (mergedFloatMap shader) k = false := by
  intro k hk
  have hp := float_maps_no_bool_keys k hk
  fin_cases hs
  · rw [show mergedFloatMap "foliage.gdshader" =
        pyMerge FLOAT_MAP_POLYGON FLOAT_MAP_FOLIAGE from rfl,
      pyHasKey_pyMerge, hp.2.1, hp.1]
    rfl
  · rw [show mergedFloatMap "polygon.gdshader" = FLOAT_MAP_POLYGON from rfl,
      hp.2.1]
  · rw [show mergedFloatMap "crystal.gdshader" =
        pyMerge FLOAT_MAP_POLYGON FLOAT_MAP_CRYSTAL from rfl,
      pyHasKey_pyMerge, hp.2.1, hp.2.2.1]
    rfl
  · rw [show mergedFloatMap "water.gdshader" =
        pyMerge FLOAT_MAP_POLYGON FLOAT_MAP_WATER from rfl,
      pyHasKey_pyMerge, hp.2.1, hp.2.2.2.1]
    rfl
  · rw [show mergedFloatMap "particles.gdshader" =
        pyMerge FLOAT_MAP_POLYGON FLOAT_MAP_PARTICLES from rfl,
      pyHasKey_pyMerge, hp.2.1, hp.2.2.2.2.1]
    rfl
  · rw [show mergedFloatMap "skydome.gdshader" =
        pyMerge FLOAT_MAP_POLYGON FLOAT_MAP_SKYDOME from rfl,
      pyHasKey_pyMerge, hp.2.1, hp.2.2.2.2.2.1]
    rfl
  · rw [show mergedFloatMap "clouds.gdshader" =
        pyMerge FLOAT_MAP_POLYGON FLOAT_MAP_CLOUDS from rfl,
      pyHasKey_pyMerge, hp.2.1, hp.2.2.2.2.2.2]
    rfl

/-- No merged float map sends any property to a derived boolean name, so a
boolean property's bools entry can never collide with a floats entry. -/
theorem merged_values_not_derived (shader : String)
    (hs : shader ∈ ALL_SHADERS) (t : String) (ht : t ∈ derivedBoolNames) :
    ∀ k2 g, pyLookup (mergedFloatMap shader) k2 = some g → g ≠ t := by
  intro k2 g hl he
  subst he
  have hval : g ∈ (mergedFloatMap shader).map Prod.snd :=
    List.mem_map_of_mem Prod.snd (pyLookup_mem hl)
  have hv := float_maps_values_not_derived g ht
  fin_cases hs
  · rw [show mergedFloatMap "foliage.gdshader" =
        pyMerge FLOAT_MAP_POLYGON FLOAT_MAP_FOLIAGE from rfl] at hval
    rcases pyMerge_snd_mem _ _ _ hval with h | h
    · exact hv.2.1 h
    · exact hv.1 h
  · rw [show mergedFloatMap "polygon.gdshader" = FLOAT_MAP_POLYGON from
        rfl] at hval
    exact hv.2.1 hval
  · rw [show mergedFloatMap "crystal.gdshader" =
        pyMerge FLOAT_MAP_POLYGON FLOAT_MAP_CRYSTAL from rfl] at hval
    rcases pyMerge_snd_mem _ _ _ hval with h | h
    · exact hv.2.1 h
    · exact hv.2.2.1 h
  · rw [show mergedFloatMap "water.gdshader" =
        pyMerge FLOAT_MAP_POLYGON FLOAT_MAP_WATER from rfl] at hval
    rcases pyMerge_snd_mem _ _ _ hval with h | h
    · exact hv.2.1 h
    · exact hv.2.2.2.1 h
  · rw [show mergedFloatMap "particles.gdshader" =
        pyMerge FLOAT_MAP_POLYGON FLOAT_MAP_PARTICLES from rfl] at hval
    rcases pyMerge_snd_mem _ _ _ hval with h | h
    · exact hv.2.1 h
    · exact hv.2.2.2.2.1 h
  · rw [show mergedFloatMap "skydome.gdshader" =
        pyMerge FLOAT_MAP_POLYGON FLOAT_MAP_SKYDOME from rfl] at hval
    rcases pyMerge_snd_mem _ _ _ hval with h | h
    · exact hv.2.1 h
    · exact hv.2.2.2.2.2.1 h
  · rw [show mergedFloatMap "clouds.gdshader" =
        pyMerge FLOAT_MAP_POLYGON FLOAT_MAP_CLOUDS from rfl] at hval
    rcases pyMerge_snd_mem _ _ _ hval with h | h
    · exact hv.2.1 h
    · exact hv.2.2.2.2.2.2 h

/-- Two boolean float properties with the same target name under a float
map that knows neither are the same property. -/
theorem bool_name_inj (fm : List (String × String))
    (hfm : ∀ k ∈ BOOLEAN_FLOAT_PROPERTIES, pyHasKey fm k = false)
    (k k2 : String) (hk : k ∈ BOOLEAN_FLOAT_PROPERTIES)
    (hk2 : k2 ∈ BOOLEAN_FLOAT_PROPERTIES)
    (he : godotNameFor fm k2 = godotNameFor fm k) : k2 = k := by
  rw [godotNameFor_of_no_key fm k2 (hfm k2 hk2),
    godotNameFor_of_no_key fm k (hfm k hk)] at he
  have hnd : (BOOLEAN_FLOAT_PROPERTIES.map unity_to_godot_name).Nodup := by
    rw [derivedBoolNames_spec]
    exact derivedBoolNames_nodup
  exact List.inj_on_of_nodup_map hnd hk2 hk he

/-- C7: for each of the seven merged float maps used by `map_material`, a
float property in `BOOLEAN_FLOAT_PROPERTIES` lands in the output bools map
— never the floats map — with value `value != 0.0`, under the float map's
entry when it has one and the derived snake_case name otherwise; and float
properties that are neither boolean-listed nor float-map keys are
dropped. -/
theorem C7_boolean_extraction :
    (∀ shader ∈ ALL_SHADERS, ∀ floats : List (String × ℚ),
      (floats.map Prod.fst).Nodup →
      ∀ k v, (k, v) ∈ floats → k ∈ BOOLEAN_FLOAT_PROPERTIES →
        pyLookup (convert_boolean_floats floats (mergedFloatMap shader)).2
            (godotNameFor (mergedFloatMap shader) k) =
          some (decide (v ≠ 0)) ∧
        pyHasKey (convert_boolean_floats floats (mergedFloatMap shader)).1
            (godotNameFor (mergedFloatMap shader) k) = false) ∧
    (∀ (fm : List (String × String)) (floats : List (String × ℚ)),
      convert_boolean_floats floats fm =
        convert_boolean_floats
          (floats.filter (fun p => p.1 ∈ BOOLEAN_FLOAT_PROPERTIES ∨
            pyHasKey fm p.1 = true)) fm) := by
  constructor
  · intro shader hs floats hnd k v hmem hk
    have hfm := merged_no_bool_keys shader hs
    constructor
    · exact conv_bools_value _ floats k v hmem hk hnd
        (fun k2 v2 _ hb he => bool_name_inj _ hfm k k2 hk hb he) ([], [])
    · have hg : godotNameFor (mergedFloatMap shader) k =
          unity_to_godot_name k :=
        godotNameFor_of_no_key _ _ (hfm k hk)
      have hder : unity_to_godot_name k ∈ derivedBoolNames := by
        rw [← derivedBoolNames_spec]
        exact List.mem_map_of_mem _ hk
      have hnv : ∀ k2 g, pyLookup (mergedFloatMap shader) k2 = some g →
          g ≠ godotNameFor (mergedFloatMap shader) k := by
        rw [hg]
        exact merged_values_not_derived shader hs _ hder
      rw [show convert_boolean_floats floats (mergedFloatMap shader) =
          List.foldl (convStep (mergedFloatMap shader)) ([], []) floats from
          rfl]
      rw [conv_rem_frozen _ floats _ hnv ([], [])]
      rfl
  · intro fm floats
    exact conv_drops_unmapped fm floats ([], [])

/-- C7 witness: `_Enable_Snow = 1.0` under the polygon float map appears in
bools as `true` under `enable_snow` and not in the floats output, and an
unknown non-boolean float is dropped. -/
theorem C7_boolean_extraction_witness :
    pyLookup (convert_boolean_floats [("_Enable_Snow", 1)]
        (mergedFloatMap "polygon.gdshader")).2
      (godotNameFor (mergedFloatMap "polygon.gdshader") "_Enable_Snow") =
      some (decide ((1 : ℚ) ≠ 0)) ∧
    convert_boolean_floats [("_Zzz", 1)] (mergedFloatMap "polygon.gdshader") =
      convert_boolean_floats
        (([("_Zzz", 1)] : List (String × ℚ)).filter
          (fun p => p.1 ∈ BOOLEAN_FLOAT_PROPERTIES ∨
            pyHasKey (mergedFloatMap "polygon.gdshader") p.1 = true))
        (mergedFloatMap "polygon.gdshader") :=
  ⟨(C7_boolean_extraction.1 "polygon.gdshader" (by decide)
      [("_Enable_Snow", 1)] (by decide) "_Enable_Snow" 1 (by decide)
      (by decide)).1,
   C7_boolean_extraction.2 (mergedFloatMap "polygon.gdshader") [("_Zzz", 1)]⟩

end SyntyConv
